import Mathlib

/-!
Shallow embedding of the DROP reading-comprehension models
(`qanet_for_drop.py`, `drop_models/qanet_marginal.py`,
`drop_models/qanet_plus_q_span.py`).

Tensors are embedded index-wise: a length-`n` float vector is a function
`ℕ → ℝ` together with the explicit length `n`; integer (Long) tensors are
`ℕ → ℤ`.  The upstream encoder stack is out of scope (spec §1) and the
embedded functions start from the head logits that the cited code consumes.
-/

noncomputable section

open Real Finset

namespace RC

/-- Modelled from the spec: the external `allennlp.nn.util.logsumexp`
(absent from src/) — log-sum-exp over positions `0..n-1`, numerically
stabilized by subtracting the running maximum before exponentiating (§7). -/
def maxOver (x : ℕ → ℝ) : ℕ → ℝ
  | 0 => 0
  | 1 => x 0
  | n + 2 => max (maxOver x (n + 1)) (x (n + 1))

/-- Modelled from the spec: stabilized log-sum-exp (§4.5, §7). -/
def logsumexp (x : ℕ → ℝ) (n : ℕ) : ℝ :=
  maxOver x n + Real.log (∑ i ∈ Finset.range n, Real.exp (x i - maxOver x n))

/-- Modelled from the spec: the repository's
`memory_effient_masked_softmax` (its module `reading_comprehension/utils.py`
is absent from src/) — a softmax restricted to the valid positions,
renormalized so invalid positions contribute zero probability, and defined
as all zeros when every position is masked (§4.1, glossary).  The `if` on a
real-valued condition is classical. -/
def maskedSoftmax (s m : ℕ → ℝ) (n : ℕ) (i : ℕ) : ℝ :=
  if (∑ j ∈ Finset.range n, m j * Real.exp (s j)) = 0 then 0
  else m i * Real.exp (s i) / (∑ j ∈ Finset.range n, m j * Real.exp (s j))

/-- Modelled from the spec: the external `allennlp.nn.util.masked_log_softmax`
(absent from src/) — the log of the masked softmax (§4.4, §7). -/
def maskedLogSoftmax (s m : ℕ → ℝ) (n : ℕ) (i : ℕ) : ℝ :=
  Real.log (maskedSoftmax s m n i)

/-- Modelled from the spec: the external `torch.nn.functional.softmax`
over a closed label set of size `n` (§4.4). -/
def softmax (s : ℕ → ℝ) (n : ℕ) (i : ℕ) : ℝ :=
  Real.exp (s i) / ∑ j ∈ Finset.range n, Real.exp (s j)

/-- Modelled from the spec: the external `torch.nn.functional.log_softmax`
over a closed label set of size `n` (§4.4). -/
def logSoftmax (s : ℕ → ℝ) (n : ℕ) (i : ℕ) : ℝ :=
  s i - Real.log (∑ j ∈ Finset.range n, Real.exp (s j))

/-- Modelled from the spec: the external `allennlp.nn.util.replace_masked_values`
(absent from src/) — keep entries whose mask is 1, replace entries whose
mask is 0 by `v` (§4.3, §4.5). -/
def replaceMaskedValues (x m : ℕ → ℝ) (v : ℝ) (i : ℕ) : ℝ :=
  x i * m i + v * (1 - m i)

/-- Modelled from the spec: the external `torch.argmax` over positions
`0..n-1`, with the deterministic first-occurrence tie-break the spec pins
(§8, decoding scenario). -/
def argmaxFirst (x : ℕ → ℝ) : ℕ → ℕ
  | 0 => 0
  | n + 1 => if x (argmaxFirst x n) < x n then n else argmaxFirst x n

/-- Modelled from the spec: the external
`BidirectionalAttentionFlow.get_best_span` (absent from src/), the
best-span search of §4.3.  State after scanning end positions `0..j`:
`((best_start_index, best_start_value), (start, end, best_score))`.
Before scoring end position `j`, the running maximum of the start logits
is updated with `starts j` (strict comparison, so the first index
achieving a value is kept); the candidate score is the running maximum
plus `ends j`, and the global best is updated on strict improvement. -/
def getBestSpanAux (starts ends : ℕ → ℝ) : ℕ → (ℕ × ℝ) × (ℕ × ℕ × ℝ)
  | 0 => ((0, starts 0), (0, 0, starts 0 + ends 0))
  | j + 1 =>
    let prev := getBestSpanAux starts ends j
    let bs := if prev.1.2 < starts (j + 1) then (j + 1, starts (j + 1)) else prev.1
    let c := bs.2 + ends (j + 1)
    if prev.2.2.2 < c then (bs, (bs.1, j + 1, c)) else (bs, prev.2)

/-- Modelled from the spec: best-span search over positions `0..n-1`
(§4.3); returns `(start, end, combined score)`. -/
def getBestSpan (starts ends : ℕ → ℝ) (n : ℕ) : ℕ × ℕ × ℝ :=
  (getBestSpanAux starts ends (n - 1)).2

namespace QaNetMarginal

/-- One batch example as consumed by the span heads and the loss block of
`QaNetMarginal.forward` (qanet_marginal.py lines 127-167): span start/end
logits, the passage mask and length, and the fixed-capacity annotated
passage spans (a slot whose start is the sentinel `-1` is padding). -/
structure Example where
  passageLen : ℕ
  startLogits : ℕ → ℝ
  endLogits : ℕ → ℝ
  passageMask : ℕ → ℝ
  spans : ℕ → ℤ × ℤ
  numSpanSlots : ℕ

/-- qanet_marginal.py line 133: `passage_span_start_log_probs`. -/
def spanStartLogProbs (ex : Example) (i : ℕ) : ℝ :=
  maskedLogSoftmax ex.startLogits ex.passageMask ex.passageLen i

/-- qanet_marginal.py line 134: `passage_span_end_log_probs`. -/
def spanEndLogProbs (ex : Example) (i : ℕ) : ℝ :=
  maskedLogSoftmax ex.endLogits ex.passageMask ex.passageLen i

/-- qanet_marginal.py line 150: `(passage_span_starts != -1).float()`. -/
def spanMask (ex : Example) (j : ℕ) : ℝ :=
  if (ex.spans j).1 = -1 then 0 else 1

/-- qanet_marginal.py lines 151-152: `relu` clamps the `-1` sentinel to 0. -/
def clampedSpanStart (ex : Example) (j : ℕ) : ℕ := (ex.spans j).1.toNat

/-- qanet_marginal.py lines 151-152. -/
def clampedSpanEnd (ex : Example) (j : ℕ) : ℕ := (ex.spans j).2.toNat

/-- qanet_marginal.py lines 154-163: gather the start/end log-probs at the
clamped annotated indices, add them, and force padded slots to `-1e10`. -/
def logLikelihoodForSpans (ex : Example) (j : ℕ) : ℝ :=
  replaceMaskedValues
    (fun j => spanStartLogProbs ex (clampedSpanStart ex j)
      + spanEndLogProbs ex (clampedSpanEnd ex j))
    (spanMask ex) (-1e10) j

/-- qanet_marginal.py line 165: `log_marginal_likelihood_for_passage_spans`. -/
def logMarginalLikelihood (ex : Example) : ℝ :=
  logsumexp (logLikelihoodForSpans ex) ex.numSpanSlots

/-- qanet_marginal.py line 167: `output_dict["loss"]`. -/
def batchLoss (b : List Example) : ℝ :=
  -((b.map logMarginalLikelihood).sum / b.length)

/-- Well-formedness of a `QaNetMarginal` example in the sense of the spec
data model (§3): boolean passage mask, at least one annotation slot,
every annotated span non-padded with both endpoints at valid in-range
positions, and the annotated spans pairwise distinct. -/
def WellFormed (ex : Example) : Prop :=
  (∀ i, ex.passageMask i = 0 ∨ ex.passageMask i = 1)
  ∧ 1 ≤ ex.numSpanSlots
  ∧ (∀ j < ex.numSpanSlots,
      0 ≤ (ex.spans j).1 ∧ 0 ≤ (ex.spans j).2
      ∧ (ex.spans j).1.toNat < ex.passageLen ∧ (ex.spans j).2.toNat < ex.passageLen
      ∧ ex.passageMask (ex.spans j).1.toNat = 1 ∧ ex.passageMask (ex.spans j).2.toNat = 1)
  ∧ (∀ j k, j < ex.numSpanSlots → k < ex.numSpanSlots → ex.spans j = ex.spans k → j = k)

end QaNetMarginal

namespace QaNetPlusQuestionSpan

/-- One batch example as consumed by the heads, decode and loss blocks of
`QaNetPlusQuestionSpan.forward` (qanet_plus_q_span.py lines 156-263):
span logits for passage and question, the two masks and lengths, the
2-class answer-type gate logits, the pooling scores, and the
fixed-capacity annotated spans of both types. -/
structure Example where
  passageLen : ℕ
  questionLen : ℕ
  passageStartLogits : ℕ → ℝ
  passageEndLogits : ℕ → ℝ
  questionStartLogits : ℕ → ℝ
  questionEndLogits : ℕ → ℝ
  passageMask : ℕ → ℝ
  questionMask : ℕ → ℝ
  gateLogits : ℕ → ℝ
  passageSpans : ℕ → ℤ × ℤ
  numPassageSpanSlots : ℕ
  questionSpans : ℕ → ℤ × ℤ
  numQuestionSpanSlots : ℕ

/-- qanet_plus_q_span.py lines 146-148: the passage pooling weights are a
masked softmax of the linear scores. -/
def passagePoolingWeights (scores mask : ℕ → ℝ) (n : ℕ) (i : ℕ) : ℝ :=
  maskedSoftmax scores mask n i

/-- qanet_plus_q_span.py lines 149-151: question pooling weights. -/
def questionPoolingWeights (scores mask : ℕ → ℝ) (n : ℕ) (i : ℕ) : ℝ :=
  maskedSoftmax scores mask n i

/-- qanet_plus_q_span.py line 158: `answer_type_log_probs`. -/
def gateLogProbs (ex : Example) (t : ℕ) : ℝ :=
  logSoftmax ex.gateLogits 2 t

/-- qanet_plus_q_span.py line 169. -/
def passageStartLogProbs (ex : Example) (i : ℕ) : ℝ :=
  maskedLogSoftmax ex.passageStartLogits ex.passageMask ex.passageLen i

/-- qanet_plus_q_span.py line 170. -/
def passageEndLogProbs (ex : Example) (i : ℕ) : ℝ :=
  maskedLogSoftmax ex.passageEndLogits ex.passageMask ex.passageLen i

/-- qanet_plus_q_span.py line 176. -/
def questionStartLogProbs (ex : Example) (i : ℕ) : ℝ :=
  maskedLogSoftmax ex.questionStartLogits ex.questionMask ex.questionLen i

/-- qanet_plus_q_span.py line 177. -/
def questionEndLogProbs (ex : Example) (i : ℕ) : ℝ :=
  maskedLogSoftmax ex.questionEndLogits ex.questionMask ex.questionLen i

/-- qanet_plus_q_span.py lines 179-183: best passage span over the
mask-replaced logits. -/
def bestPassageSpan (ex : Example) : ℕ × ℕ × ℝ :=
  getBestSpan (replaceMaskedValues ex.passageStartLogits ex.passageMask (-1e7))
    (replaceMaskedValues ex.passageEndLogits ex.passageMask (-1e7)) ex.passageLen

/-- qanet_plus_q_span.py lines 185-191: the decode-time score of the best
passage span.  NOTE: the source gathers the end log-probability at
`best_passage_span[:, 0]` — the start index — so both factors are
evaluated at the start position. -/
def bestPassageSpanLogProb (ex : Example) : ℝ :=
  passageStartLogProbs ex (bestPassageSpan ex).1
    + passageEndLogProbs ex (bestPassageSpan ex).1
    + gateLogProbs ex 0

/-- qanet_plus_q_span.py lines 193-197. -/
def bestQuestionSpan (ex : Example) : ℕ × ℕ × ℝ :=
  getBestSpan (replaceMaskedValues ex.questionStartLogits ex.questionMask (-1e7))
    (replaceMaskedValues ex.questionEndLogits ex.questionMask (-1e7)) ex.questionLen

/-- qanet_plus_q_span.py lines 199-205: again both factors are gathered at
`best_question_span[:, 0]`, the start index. -/
def bestQuestionSpanLogProb (ex : Example) : ℝ :=
  questionStartLogProbs ex (bestQuestionSpan ex).1
    + questionEndLogProbs ex (bestQuestionSpan ex).1
    + gateLogProbs ex 1

/-- qanet_plus_q_span.py line 207: the answer type is the argmax of the
gate log-probabilities alone. -/
def bestAnswerType (ex : Example) : ℕ :=
  argmaxFirst (gateLogProbs ex) 2

/-- qanet_plus_q_span.py line 217: `(passage_span_starts != -1).float()`. -/
def passageSpanMask (ex : Example) (j : ℕ) : ℝ :=
  if (ex.passageSpans j).1 = -1 then 0 else 1

/-- qanet_plus_q_span.py lines 218-230: per-slot passage-span
log-likelihoods, with padded slots forced to `-1e10`. -/
def logLikelihoodForPassageSpans (ex : Example) (j : ℕ) : ℝ :=
  replaceMaskedValues
    (fun j => passageStartLogProbs ex (ex.passageSpans j).1.toNat
      + passageEndLogProbs ex (ex.passageSpans j).2.toNat)
    (passageSpanMask ex) (-1e10) j

/-- qanet_plus_q_span.py lines 232-233. -/
def logMarginalLikelihoodForPassageSpans (ex : Example) : ℝ :=
  gateLogProbs ex 0
    + logsumexp (logLikelihoodForPassageSpans ex) ex.numPassageSpanSlots

/-- qanet_plus_q_span.py line 239: `(question_span_starts != -1).float()`. -/
def questionSpanMask (ex : Example) (j : ℕ) : ℝ :=
  if (ex.questionSpans j).1 = -1 then 0 else 1

/-- qanet_plus_q_span.py lines 240-252. -/
def logLikelihoodForQuestionSpans (ex : Example) (j : ℕ) : ℝ :=
  replaceMaskedValues
    (fun j => questionStartLogProbs ex (ex.questionSpans j).1.toNat
      + questionEndLogProbs ex (ex.questionSpans j).2.toNat)
    (questionSpanMask ex) (-1e10) j

/-- qanet_plus_q_span.py lines 255-256. -/
def logMarginalLikelihoodForQuestionSpans (ex : Example) : ℝ :=
  gateLogProbs ex 1
    + logsumexp (logLikelihoodForQuestionSpans ex) ex.numQuestionSpanSlots

/-- qanet_plus_q_span.py lines 258-261: `torch.stack([...], dim=-1)` of
the two per-type marginals. -/
def stackedTypeMarginals (ex : Example) (t : ℕ) : ℝ :=
  if t = 0 then logMarginalLikelihoodForPassageSpans ex
  else logMarginalLikelihoodForQuestionSpans ex

/-- qanet_plus_q_span.py lines 258-261: `marginal_log_likelihood`. -/
def marginalLogLikelihood (ex : Example) : ℝ :=
  logsumexp (stackedTypeMarginals ex) 2

/-- qanet_plus_q_span.py line 263: `output_dict["loss"]`. -/
def batchLoss (b : List Example) : ℝ :=
  -((b.map marginalLogLikelihood).sum / b.length)

/-- The head inputs of one example without its annotations, for the
optional-annotation entry point. -/
structure HeadsOnly where
  passageLen : ℕ
  questionLen : ℕ
  passageStartLogits : ℕ → ℝ
  passageEndLogits : ℕ → ℝ
  questionStartLogits : ℕ → ℝ
  questionEndLogits : ℕ → ℝ
  passageMask : ℕ → ℝ
  questionMask : ℕ → ℝ
  gateLogits : ℕ → ℝ

/-- Bundle heads with both span annotation tensors. -/
def mkExamples (hs : List HeadsOnly) (ps : List ((ℕ → ℤ × ℤ) × ℕ))
    (qs : List ((ℕ → ℤ × ℤ) × ℕ)) : List Example :=
  List.zipWith
    (fun h t =>
      { passageLen := h.passageLen, questionLen := h.questionLen,
        passageStartLogits := h.passageStartLogits,
        passageEndLogits := h.passageEndLogits,
        questionStartLogits := h.questionStartLogits,
        questionEndLogits := h.questionEndLogits,
        passageMask := h.passageMask, questionMask := h.questionMask,
        gateLogits := h.gateLogits,
        passageSpans := t.1.1, numPassageSpanSlots := t.1.2,
        questionSpans := t.2.1, numQuestionSpanSlots := t.2.2 })
    hs (List.zip ps qs)

/-- qanet_plus_q_span.py lines 212-263: the loss block runs whenever
`answer_as_passage_spans` is present (line 212) and then unconditionally
subscripts `answer_as_question_spans[:, :, 0]` (line 236); a `None` there
raises instead of returning a loss. -/
def forwardLoss (hs : List HeadsOnly) (passageSpansIn : Option (List ((ℕ → ℤ × ℤ) × ℕ)))
    (questionSpansIn : Option (List ((ℕ → ℤ × ℤ) × ℕ))) : Except String (Option ℝ) :=
  match passageSpansIn with
  | none => .ok none
  | some ps =>
    match questionSpansIn with
    | none => .error "TypeError: NoneType object is not subscriptable"
    | some qs => .ok (some (batchLoss (mkExamples hs ps qs)))

/-- The set of non-padded passage-span annotation slots of an example. -/
def validPassageSlots (ex : Example) : Finset ℕ :=
  (Finset.range ex.numPassageSpanSlots).filter fun j => (ex.passageSpans j).1 ≠ -1

/-- The set of non-padded question-span annotation slots of an example. -/
def validQuestionSlots (ex : Example) : Finset ℕ :=
  (Finset.range ex.numQuestionSpanSlots).filter fun j => (ex.questionSpans j).1 ≠ -1

/-- The claim's formula (C1, spec §4.5): the log-likelihood of one
non-padded annotated derivation — start log-probability plus end
log-probability of its span. -/
def claimPassageSlotLogLikelihood (ex : Example) (j : ℕ) : ℝ :=
  passageStartLogProbs ex (ex.passageSpans j).1.toNat
    + passageEndLogProbs ex (ex.passageSpans j).2.toNat

/-- The claim's formula (C1, spec §4.5), question-span analogue. -/
def claimQuestionSlotLogLikelihood (ex : Example) (j : ℕ) : ℝ :=
  questionStartLogProbs ex (ex.questionSpans j).1.toNat
    + questionEndLogProbs ex (ex.questionSpans j).2.toNat

/-- The claim's formula (C1, spec §4.5): per answer type, the gate
log-probability plus the log-sum-exp over that type's non-padded
annotated derivations only. -/
def claimTypeScore (ex : Example) (t : ℕ) : ℝ :=
  if t = 0 then
    gateLogProbs ex 0
      + Real.log (∑ j ∈ validPassageSlots ex,
          Real.exp (claimPassageSlotLogLikelihood ex j))
  else
    gateLogProbs ex 1
      + Real.log (∑ j ∈ validQuestionSlots ex,
          Real.exp (claimQuestionSlotLogLikelihood ex j))

/-- The claim's formula (C1, spec §4.5): the combined per-example marginal
log-likelihood — log-sum-exp of the type scores across the answer types
present in the example's annotation. -/
def claimCombinedMarginal (ex : Example) : ℝ :=
  Real.log (∑ t ∈ (Finset.range 2).filter
      (fun t => if t = 0 then (validPassageSlots ex).Nonempty
        else (validQuestionSlots ex).Nonempty),
    Real.exp (claimTypeScore ex t))

/-- The claim's formula (C1, spec §4.5): batch loss as the mean of the
negated combined marginals. -/
def claimBatchLoss (b : List Example) : ℝ :=
  -((b.map claimCombinedMarginal).sum / b.length)

/-- The amended formula for C1: identical to the claim's except that every
annotation slot participates, a padded slot entering the inner log-sum-exp
at the sentinel log-likelihood `-1e10`, and both configured types
participate whether or not the example's annotation mentions them. -/
def amendedPassageSlotLogLikelihood (ex : Example) (j : ℕ) : ℝ :=
  if (ex.passageSpans j).1 = -1 then -1e10 else claimPassageSlotLogLikelihood ex j

/-- The amended formula for C1, question-span analogue. -/
def amendedQuestionSlotLogLikelihood (ex : Example) (j : ℕ) : ℝ :=
  if (ex.questionSpans j).1 = -1 then -1e10 else claimQuestionSlotLogLikelihood ex j

/-- The claim's selection rule (C5, spec §4.6) applied to
`QaNetPlusQuestionSpan`: the argmax over the two configured types of the
gate-weighted best-derivation scores that the model itself computes. -/
def claimBestAnswerType (ex : Example) : ℕ :=
  argmaxFirst
    (fun t => if t = 0 then bestPassageSpanLogProb ex else bestQuestionSpanLogProb ex) 2

/-- The amended formula for C1: the combined per-example marginal
log-likelihood with sentinel-valued padded slots and both types present. -/
def amendedCombinedMarginal (ex : Example) : ℝ :=
  Real.log
    (Real.exp (gateLogProbs ex 0
        + Real.log (∑ j ∈ Finset.range ex.numPassageSpanSlots,
            Real.exp (amendedPassageSlotLogLikelihood ex j)))
      + Real.exp (gateLogProbs ex 1
        + Real.log (∑ j ∈ Finset.range ex.numQuestionSpanSlots,
            Real.exp (amendedQuestionSlotLogLikelihood ex j))))

/-- The decoded derivation a `forward` answer string is produced from
(qanet_plus_q_span.py lines 277-292). -/
inductive Answer where
  | passageSpan (s e : ℕ)
  | questionSpan (s e : ℕ)

/-- qanet_plus_q_span.py lines 277-292: dispatch on the best answer type;
an unrecognized type raises. -/
def decodedAnswer (ex : Example) : Except String Answer :=
  if bestAnswerType ex = 0 then
    .ok (.passageSpan (bestPassageSpan ex).1 (bestPassageSpan ex).2.1)
  else if bestAnswerType ex = 1 then
    .ok (.questionSpan (bestQuestionSpan ex).1 (bestQuestionSpan ex).2.1)
  else .error "Answer type should be 0, 1"

end QaNetPlusQuestionSpan

namespace QaNetForDrop

/-- The head inputs consumed by the scoring, decode and loss blocks of
`QaNetForDrop.forward` (qanet_for_drop.py lines 141-258): span logits,
masks and length, the 3-class answer-type gate logits, per-number 3-class
sign logits with the numbers mask, and the 10-class count logits. -/
structure Heads where
  passageLen : ℕ
  startLogits : ℕ → ℝ
  endLogits : ℕ → ℝ
  passageMask : ℕ → ℝ
  gateLogits : ℕ → ℝ
  numNumbers : ℕ
  numbersMask : ℕ → ℝ
  signLogits : ℕ → ℕ → ℝ
  countLogits : ℕ → ℝ

/-- qanet_for_drop.py lines 141-142: the passage pooling weights are the
raw linear scores multiplied elementwise by the mask — no softmax. -/
def passagePoolingWeights (scores mask : ℕ → ℝ) (i : ℕ) : ℝ :=
  scores i * mask i

/-- qanet_for_drop.py lines 144-145: question pooling weights, likewise
raw scores times mask. -/
def questionPoolingWeights (scores mask : ℕ → ℝ) (i : ℕ) : ℝ :=
  scores i * mask i

/-- qanet_for_drop.py line 150: `answer_type_probs` (plain softmax). -/
def answerTypeProbs (h : Heads) (t : ℕ) : ℝ :=
  softmax h.gateLogits 3 t

/-- qanet_for_drop.py line 157: `span_start_probs`. -/
def spanStartProbs (h : Heads) (i : ℕ) : ℝ :=
  maskedSoftmax h.startLogits h.passageMask h.passageLen i

/-- qanet_for_drop.py line 163: `span_end_probs`. -/
def spanEndProbs (h : Heads) (i : ℕ) : ℝ :=
  maskedSoftmax h.endLogits h.passageMask h.passageLen i

/-- qanet_for_drop.py lines 173-175: per-number sign probabilities —
softmax over the 3 sign classes, then multiplied by the numbers mask. -/
def numberSignProbs (h : Heads) (slot c : ℕ) : ℝ :=
  softmax (h.signLogits slot) 3 c * h.numbersMask slot

/-- qanet_for_drop.py lines 178-179: `count_number_probs`. -/
def countNumberProbs (h : Heads) (c : ℕ) : ℝ :=
  softmax h.countLogits 10 c

/-- qanet_for_drop.py lines 221-230: likelihood of one annotated span slot
(product of start and end probabilities at the clamped indices, zeroed for
the `-1` padding sentinel). -/
def spanLikelihood (h : Heads) (spans : ℕ → ℤ × ℤ) (j : ℕ) : ℝ :=
  spanStartProbs h (spans j).1.toNat * spanEndProbs h (spans j).2.toNat
    * (if (spans j).1 = -1 then 0 else 1)

/-- qanet_for_drop.py line 254: `likelyhood_for_spans.sum(-1)`. -/
def spanLikelihoodSum (h : Heads) (spans : ℕ → ℤ × ℤ) (nSlots : ℕ) : ℝ :=
  ∑ j ∈ Finset.range nSlots, spanLikelihood h spans j

/-- qanet_for_drop.py line 234: a combination row is padding iff its label
sum is not positive. -/
def combinationMask (combos : ℕ → ℕ → ℤ) (numNumbers : ℕ) (c : ℕ) : ℝ :=
  if 0 < ∑ slot ∈ Finset.range numNumbers, combos c slot then 1 else 0

/-- qanet_for_drop.py lines 236-241: gather each number slot's probability
for the combination's sign label, then force masked number slots to 1 so
they act as the multiplicative identity. -/
def combinationSlotLikelihood (h : Heads) (combos : ℕ → ℕ → ℤ) (slot c : ℕ) : ℝ :=
  numberSignProbs h slot ((combos c slot).toNat) * h.numbersMask slot
    + (1 - h.numbersMask slot)

/-- qanet_for_drop.py lines 243-245: the likelihood of one annotated
combination — the product over number slots computed in log space with a
`1e-10` guard, zeroed for padded rows. -/
def combinationLikelihood (h : Heads) (combos : ℕ → ℕ → ℤ) (c : ℕ) : ℝ :=
  Real.exp (∑ slot ∈ Finset.range h.numNumbers,
      Real.log (combinationSlotLikelihood h combos slot c + 1e-10))
    * combinationMask combos h.numNumbers c

/-- qanet_for_drop.py line 255: `likelyhood_for_combinations.sum(-1)`. -/
def combinationLikelihoodSum (h : Heads) (combos : ℕ → ℕ → ℤ) (nCombos : ℕ) : ℝ :=
  ∑ c ∈ Finset.range nCombos, combinationLikelihood h combos c

/-- qanet_for_drop.py line 249: `(answer_as_counts != -1).float()`. -/
def countMask (counts : ℕ → ℤ) (j : ℕ) : ℝ :=
  if counts j = -1 then 0 else 1

/-- qanet_for_drop.py lines 251-252. -/
def countLikelihood (h : Heads) (counts : ℕ → ℤ) (j : ℕ) : ℝ :=
  countNumberProbs h ((counts j).toNat) * countMask counts j

/-- qanet_for_drop.py line 256: `likelyhood_for_counts.sum(-1)`. -/
def countLikelihoodSum (h : Heads) (counts : ℕ → ℤ) (nCounts : ℕ) : ℝ :=
  ∑ j ∈ Finset.range nCounts, countLikelihood h counts j

/-- qanet_for_drop.py lines 254-256: the per-example marginal likelihood,
computed in probability space and weighted by the answer-type gate. -/
def marginalLikelihood (h : Heads) (spans : ℕ → ℤ × ℤ) (nSpans : ℕ)
    (combos : ℕ → ℕ → ℤ) (nCombos : ℕ) (counts : ℕ → ℤ) (nCounts : ℕ) : ℝ :=
  answerTypeProbs h 0 * spanLikelihoodSum h spans nSpans
    + answerTypeProbs h 1 * combinationLikelihoodSum h combos nCombos
    + answerTypeProbs h 2 * countLikelihoodSum h counts nCounts

/-- One fully-annotated example of `QaNetForDrop.forward`. -/
structure Example where
  heads : Heads
  spans : ℕ → ℤ × ℤ
  numSpanSlots : ℕ
  combos : ℕ → ℕ → ℤ
  numComboSlots : ℕ
  counts : ℕ → ℤ
  numCountSlots : ℕ

/-- qanet_for_drop.py lines 254-256 for one bundled example. -/
def exampleMarginal (ex : Example) : ℝ :=
  marginalLikelihood ex.heads ex.spans ex.numSpanSlots ex.combos ex.numComboSlots
    ex.counts ex.numCountSlots

/-- qanet_for_drop.py line 258: `loss = -(marginal + 1e-10).log().mean()`. -/
def batchLoss (b : List Example) : ℝ :=
  -((b.map (fun ex => Real.log (exampleMarginal ex + 1e-10))).sum / b.length)

/-- qanet_for_drop.py lines 181-182. -/
def replacedStartLogits (h : Heads) (i : ℕ) : ℝ :=
  replaceMaskedValues h.startLogits h.passageMask (-1e7) i

/-- qanet_for_drop.py lines 181-182. -/
def replacedEndLogits (h : Heads) (i : ℕ) : ℝ :=
  replaceMaskedValues h.endLogits h.passageMask (-1e7) i

/-- qanet_for_drop.py line 184: `best_span`. -/
def bestSpan (h : Heads) : ℕ × ℕ × ℝ :=
  getBestSpan (replacedStartLogits h) (replacedEndLogits h) h.passageLen

/-- qanet_for_drop.py lines 186-189: the decode-time best-span score.
NOTE: the source gathers both factors from `span_start_probs` — the
second factor is the start distribution evaluated at the end index. -/
def bestSpanProb (h : Heads) : ℝ :=
  spanStartProbs h (bestSpan h).1 * spanStartProbs h (bestSpan h).2.1
    * answerTypeProbs h 0

/-- qanet_for_drop.py line 192: `numbers_mask.long()` for a 0/1 mask. -/
def numbersMaskLong (h : Heads) (slot : ℕ) : ℕ :=
  if h.numbersMask slot = 0 then 0 else 1

/-- qanet_for_drop.py line 192: the argmax sign per number slot, zeroed at
masked slots. -/
def bestSignForNumber (h : Heads) (slot : ℕ) : ℕ :=
  argmaxFirst (numberSignProbs h slot) 3 * numbersMaskLong h slot

/-- qanet_for_drop.py line 194. -/
def bestSignProb (h : Heads) (slot : ℕ) : ℝ :=
  numberSignProbs h slot (bestSignForNumber h slot)

/-- qanet_for_drop.py lines 196-197: decode-time best-combination score,
with the masked-identity trick and the `1e-10` guard. -/
def bestCombinationProb (h : Heads) : ℝ :=
  Real.exp (∑ slot ∈ Finset.range h.numNumbers,
      Real.log (bestSignProb h slot + (1 - h.numbersMask slot) + 1e-10))
    * answerTypeProbs h 1

/-- qanet_for_drop.py line 200. -/
def bestCountNumber (h : Heads) : ℕ :=
  argmaxFirst (countNumberProbs h) 10

/-- qanet_for_drop.py lines 201-202. -/
def bestCountProb (h : Heads) : ℝ :=
  countNumberProbs h (bestCountNumber h) * answerTypeProbs h 2

/-- qanet_for_drop.py lines 204-205: the stacked decode-time scores of the
three answer types. -/
def decodeScores (h : Heads) (t : ℕ) : ℝ :=
  if t = 0 then bestSpanProb h
  else if t = 1 then bestCombinationProb h
  else bestCountProb h

/-- qanet_for_drop.py lines 204-205: `best_answer_type`. -/
def bestAnswerType (h : Heads) : ℕ :=
  argmaxFirst (decodeScores h) 3

/-- The decoded derivation a `forward` answer string is produced from
(qanet_for_drop.py lines 299-318). -/
inductive Answer where
  | span (s e : ℕ)
  | plusMinus (signs : ℕ → ℕ)
  | count (c : ℕ)

/-- qanet_for_drop.py lines 299-318: dispatch on the best answer type; an
unrecognized type raises. -/
def decodedAnswer (h : Heads) : Except String Answer :=
  if bestAnswerType h = 0 then .ok (.span (bestSpan h).1 (bestSpan h).2.1)
  else if bestAnswerType h = 1 then .ok (.plusMinus (bestSignForNumber h))
  else if bestAnswerType h = 2 then .ok (.count (bestCountNumber h))
  else .error "Answer type should be 0, 1 or 2"

/-- The optional annotation tensors of `QaNetForDrop.forward` (lines
88-95): each defaults to `None` independently of the others. -/
structure ForwardInputs where
  heads : List Heads
  spansIn : Option (List ((ℕ → ℤ × ℤ) × ℕ))
  combosIn : Option (List ((ℕ → ℕ → ℤ) × ℕ))
  countsIn : Option (List ((ℕ → ℤ) × ℕ))

/-- Bundle per-example heads with the three annotation tensors. -/
def mkExamples (hs : List Heads) (sp : List ((ℕ → ℤ × ℤ) × ℕ))
    (cb : List ((ℕ → ℕ → ℤ) × ℕ)) (ct : List ((ℕ → ℤ) × ℕ)) : List Example :=
  List.zipWith
    (fun h t =>
      { heads := h, spans := t.1.1.1, numSpanSlots := t.1.1.2,
        combos := t.1.2.1, numComboSlots := t.1.2.2,
        counts := t.2.1, numCountSlots := t.2.2 })
    hs (List.zip (List.zip sp cb) ct)

/-- qanet_for_drop.py lines 217-258: the loss block runs whenever
`answer_as_spans` is present (line 217) and then unconditionally reads
`answer_as_plus_minus_combinations.sum(-1)` (line 234) and
`(answer_as_counts != -1).float()` (line 249); a `None` there raises
instead of returning a loss. -/
def forwardLoss (inp : ForwardInputs) : Except String (Option ℝ) :=
  match inp.spansIn with
  | none => .ok none
  | some sp =>
    match inp.combosIn with
    | none => .error "AttributeError: NoneType object has no attribute sum"
    | some cb =>
      match inp.countsIn with
      | none => .error "AttributeError: bool object has no attribute float"
      | some ct => .ok (some (batchLoss (mkExamples inp.heads sp cb ct)))

end QaNetForDrop

/-! Concrete batch inputs used to evaluate the embedded code. -/

/-- A length-1 passage/question example of `QaNetPlusQuestionSpan` with one
valid annotated passage span, one padded passage-span slot, and a fully
padded question-span tensor. -/
def exC1 : QaNetPlusQuestionSpan.Example where
  passageLen := 1
  questionLen := 1
  passageStartLogits := fun _ => 0
  passageEndLogits := fun _ => 0
  questionStartLogits := fun _ => 0
  questionEndLogits := fun _ => 0
  passageMask := fun _ => 1
  questionMask := fun _ => 1
  gateLogits := fun _ => 0
  passageSpans := fun j => if j = 0 then (0, 0) else (-1, -1)
  numPassageSpanSlots := 2
  questionSpans := fun _ => (-1, -1)
  numQuestionSpanSlots := 1

/-- A length-1 example of `QaNetPlusQuestionSpan` with one valid annotated
span of each type. -/
def exC1W : QaNetPlusQuestionSpan.Example where
  passageLen := 1
  questionLen := 1
  passageStartLogits := fun _ => 0
  passageEndLogits := fun _ => 0
  questionStartLogits := fun _ => 0
  questionEndLogits := fun _ => 0
  passageMask := fun _ => 1
  questionMask := fun _ => 1
  gateLogits := fun _ => 0
  passageSpans := fun _ => (0, 0)
  numPassageSpanSlots := 1
  questionSpans := fun _ => (0, 0)
  numQuestionSpanSlots := 1

/-- A length-1 example of `QaNetMarginal` with a single valid annotated
span. -/
def exC2a : QaNetMarginal.Example where
  passageLen := 1
  startLogits := fun _ => 0
  endLogits := fun _ => 0
  passageMask := fun _ => 1
  spans := fun _ => (0, 0)
  numSpanSlots := 1

/-- The example `exC2a` with one padded slot `(-1, -1)` appended to its
span tensor. -/
def exC2b : QaNetMarginal.Example where
  passageLen := 1
  startLogits := fun _ => 0
  endLogits := fun _ => 0
  passageMask := fun _ => 1
  spans := fun j => if j = 0 then (0, 0) else (-1, -1)
  numSpanSlots := 2

/-- `QaNetForDrop` heads over a 2-token passage whose start distribution
peaks at position 0 and whose end distribution peaks at position 1. -/
def hC4 : QaNetForDrop.Heads where
  passageLen := 2
  startLogits := fun i => if i = 0 then 1 else 0
  endLogits := fun i => if i = 0 then 0 else 1
  passageMask := fun _ => 1
  gateLogits := fun _ => 0
  numNumbers := 0
  numbersMask := fun _ => 0
  signLogits := fun _ _ => 0
  countLogits := fun _ => 0

/-- A `QaNetPlusQuestionSpan` example over a 2-token passage whose start
distribution peaks at position 0 and whose end distribution peaks at
position 1. -/
def exC4q : QaNetPlusQuestionSpan.Example where
  passageLen := 2
  questionLen := 1
  passageStartLogits := fun i => if i = 0 then 1 else 0
  passageEndLogits := fun i => if i = 0 then 0 else 1
  questionStartLogits := fun _ => 0
  questionEndLogits := fun _ => 0
  passageMask := fun _ => 1
  questionMask := fun _ => 1
  gateLogits := fun _ => 0
  passageSpans := fun _ => (0, 0)
  numPassageSpanSlots := 1
  questionSpans := fun _ => (0, 0)
  numQuestionSpanSlots := 1

/-- A `QaNetPlusQuestionSpan` example whose gate slightly prefers the
passage-span type while the best passage-span derivation is much less
probable than the best question-span derivation. -/
def exC5 : QaNetPlusQuestionSpan.Example where
  passageLen := 2
  questionLen := 1
  passageStartLogits := fun _ => 0
  passageEndLogits := fun _ => 0
  questionStartLogits := fun _ => 0
  questionEndLogits := fun _ => 0
  passageMask := fun _ => 1
  questionMask := fun _ => 1
  gateLogits := fun t => if t = 0 then 1 else 0
  passageSpans := fun _ => (0, 0)
  numPassageSpanSlots := 1
  questionSpans := fun _ => (0, 0)
  numQuestionSpanSlots := 1

/-- All-zero `QaNetForDrop` heads over a 1-token passage. -/
def hC5W : QaNetForDrop.Heads where
  passageLen := 1
  startLogits := fun _ => 0
  endLogits := fun _ => 0
  passageMask := fun _ => 1
  gateLogits := fun _ => 0
  numNumbers := 0
  numbersMask := fun _ => 0
  signLogits := fun _ _ => 0
  countLogits := fun _ => 0

/-- A well-formed `QaNetMarginal` example (one valid annotated span) with
one padded slot appended: the sentinel slot enters the log-sum-exp at
`-1e10`. -/
def exC7 : QaNetMarginal.Example where
  passageLen := 1
  startLogits := fun _ => 0
  endLogits := fun _ => 0
  passageMask := fun _ => 1
  spans := fun j => if j = 0 then (0, 0) else (-1, -1)
  numSpanSlots := 2

/-- `QaNetForDrop` heads over a 1-token passage whose answer-type gate
gives the arithmetic-combination type a probability below `1e-10`. -/
def hC7fd : QaNetForDrop.Heads where
  passageLen := 1
  startLogits := fun _ => 0
  endLogits := fun _ => 0
  passageMask := fun _ => 1
  gateLogits := fun t => if t = 1 then -1e12 else 0
  numNumbers := 0
  numbersMask := fun _ => 0
  signLogits := fun _ _ => 0
  countLogits := fun _ => 0

/-- A `QaNetForDrop` example with no padded annotation slots at all: the
single valid span `(0, 0)` of its 1-token passage, an empty combination
tensor, and all ten distinct counts annotated. -/
def exC7fd : QaNetForDrop.Example where
  heads := hC7fd
  spans := fun _ => (0, 0)
  numSpanSlots := 1
  combos := fun _ _ => 0
  numComboSlots := 0
  counts := fun j => (j : ℤ)
  numCountSlots := 10

/-- A fully valid `QaNetMarginal` example with no padded slots. -/
def exC7W : QaNetMarginal.Example where
  passageLen := 1
  startLogits := fun _ => 0
  endLogits := fun _ => 0
  passageMask := fun _ => 1
  spans := fun _ => (0, 0)
  numSpanSlots := 1

/-- A `QaNetMarginal` example used to witness the marginal-likelihood
monotonicity claim. -/
def exC8W : QaNetMarginal.Example where
  passageLen := 1
  startLogits := fun _ => 0
  endLogits := fun _ => 0
  passageMask := fun _ => 1
  spans := fun _ => (0, 0)
  numSpanSlots := 1

/-- `QaNetForDrop` heads used to witness the span-likelihood-sum
monotonicity claim. -/
def hC8W : QaNetForDrop.Heads where
  passageLen := 1
  startLogits := fun _ => 0
  endLogits := fun _ => 0
  passageMask := fun _ => 1
  gateLogits := fun _ => 0
  numNumbers := 0
  numbersMask := fun _ => 0
  signLogits := fun _ _ => 0
  countLogits := fun _ => 0

/-- `QaNetForDrop` heads with a single number slot that the numbers mask
marks invalid. -/
def hC9 : QaNetForDrop.Heads where
  passageLen := 1
  startLogits := fun _ => 0
  endLogits := fun _ => 0
  passageMask := fun _ => 1
  gateLogits := fun _ => 0
  numNumbers := 1
  numbersMask := fun _ => 0
  signLogits := fun _ _ => 0
  countLogits := fun _ => 0

/-! Helper lemmas about the embedded numeric utilities. -/

theorem logsumexp_eq_log_sum_exp {x : ℕ → ℝ} {n : ℕ} (hn : 1 ≤ n) :
    logsumexp x n = Real.log (∑ i ∈ Finset.range n, Real.exp (x i)) := by
  have hpos : 0 < ∑ i ∈ Finset.range n, Real.exp (x i) :=
    Finset.sum_pos (fun i _ => Real.exp_pos _) (Finset.nonempty_range_iff.mpr (by omega))
  unfold logsumexp
  rw [Finset.sum_congr rfl (fun i _ => Real.exp_sub (x i) (maxOver x n)),
    ← Finset.sum_div, Real.log_div hpos.ne' (Real.exp_ne_zero _), Real.log_exp]
  ring

theorem maskedSum_nonneg {s m : ℕ → ℝ} {n : ℕ} (hm : ∀ i, 0 ≤ m i) :
    0 ≤ ∑ j ∈ Finset.range n, m j * Real.exp (s j) :=
  Finset.sum_nonneg fun j _ => mul_nonneg (hm j) (Real.exp_pos _).le

theorem maskedSum_pos {s m : ℕ → ℝ} {n : ℕ} (hm : ∀ i, 0 ≤ m i)
    {i : ℕ} (hin : i < n) (hi : m i = 1) :
    0 < ∑ j ∈ Finset.range n, m j * Real.exp (s j) := by
  have h1 : 0 < m i * Real.exp (s i) := by rw [hi, one_mul]; exact Real.exp_pos _
  exact lt_of_lt_of_le h1 <| Finset.single_le_sum
    (fun j _ => mul_nonneg (hm j) (Real.exp_pos _).le) (Finset.mem_range.mpr hin)

theorem maskedSoftmax_nonneg {s m : ℕ → ℝ} {n : ℕ} (hm : ∀ i, 0 ≤ m i) (i : ℕ) :
    0 ≤ maskedSoftmax s m n i := by
  unfold maskedSoftmax
  split
  · exact le_refl 0
  · exact div_nonneg (mul_nonneg (hm i) (Real.exp_pos _).le) (maskedSum_nonneg hm)

theorem maskedSoftmax_eq_zero_of_mask {s m : ℕ → ℝ} {n i : ℕ} (hi : m i = 0) :
    maskedSoftmax s m n i = 0 := by
  unfold maskedSoftmax
  split
  · rfl
  · rw [hi, zero_mul, zero_div]

theorem maskedSoftmax_sum_eq_one {s m : ℕ → ℝ} {n : ℕ} (hm : ∀ i, 0 ≤ m i)
    {i : ℕ} (hin : i < n) (hi : m i = 1) :
    ∑ j ∈ Finset.range n, maskedSoftmax s m n j = 1 := by
  have hZ := maskedSum_pos (s := s) hm hin hi
  unfold maskedSoftmax
  rw [Finset.sum_congr rfl fun j _ => if_neg hZ.ne', ← Finset.sum_div, div_self hZ.ne']

theorem maskedSoftmax_sum_eq_zero {s m : ℕ → ℝ} {n : ℕ} (hall : ∀ i < n, m i = 0) :
    ∑ j ∈ Finset.range n, maskedSoftmax s m n j = 0 := by
  have hZ : (∑ j ∈ Finset.range n, m j * Real.exp (s j)) = 0 :=
    Finset.sum_eq_zero fun j hj => by
      rw [hall j (Finset.mem_range.mp hj), zero_mul]
  unfold maskedSoftmax
  exact Finset.sum_eq_zero fun j _ => if_pos hZ

theorem maskedSoftmax_pos {s m : ℕ → ℝ} {n : ℕ} (hm : ∀ i, 0 ≤ m i)
    {i : ℕ} (hin : i < n) (hi : m i = 1) :
    0 < maskedSoftmax s m n i := by
  have hZ := maskedSum_pos (s := s) hm hin hi
  unfold maskedSoftmax
  rw [if_neg hZ.ne', hi, one_mul]
  exact div_pos (Real.exp_pos _) hZ

theorem maskedSoftmax_le_one {s m : ℕ → ℝ} {n : ℕ} (hm : ∀ i, 0 ≤ m i)
    {i : ℕ} (hin : i < n) :
    maskedSoftmax s m n i ≤ 1 := by
  unfold maskedSoftmax
  split
  · exact zero_le_one
  · next hne =>
    have hZ : 0 < ∑ j ∈ Finset.range n, m j * Real.exp (s j) :=
      lt_of_le_of_ne (maskedSum_nonneg hm) (Ne.symm hne)
    exact (div_le_one hZ).mpr <| Finset.single_le_sum
      (fun j _ => mul_nonneg (hm j) (Real.exp_pos _).le) (Finset.mem_range.mpr hin)

theorem argmaxFirst_lt (x : ℕ → ℝ) (n : ℕ) (hn : 1 ≤ n) : argmaxFirst x n < n := by
  induction n with
  | zero => omega
  | succ n ih =>
    simp only [argmaxFirst]
    split
    · omega
    · rcases Nat.eq_zero_or_pos n with h0 | hp
      · subst h0; simp [argmaxFirst]
      · exact Nat.lt_succ_of_lt (ih hp)

theorem le_argmaxFirst (x : ℕ → ℝ) (n : ℕ) : ∀ j < n, x j ≤ x (argmaxFirst x n) := by
  induction n with
  | zero => omega
  | succ n ih =>
    intro j hj
    simp only [argmaxFirst]
    split
    · next hlt =>
      rcases Nat.lt_succ_iff_lt_or_eq.mp hj with h | h
      · exact le_trans (ih j h) hlt.le
      · subst h; exact le_refl _
    · next hge =>
      rcases Nat.lt_succ_iff_lt_or_eq.mp hj with h | h
      · exact ih j h
      · subst h; exact not_lt.mp hge

theorem lt_argmaxFirst_of_lt (x : ℕ → ℝ) (n : ℕ) :
    ∀ j < argmaxFirst x n, x j < x (argmaxFirst x n) := by
  induction n with
  | zero =>
    intro j hj
    simp only [argmaxFirst] at hj
    omega
  | succ n ih =>
    intro j hj
    simp only [argmaxFirst] at hj ⊢
    by_cases hc : x (argmaxFirst x n) < x n
    · rw [if_pos hc] at hj ⊢
      exact lt_of_le_of_lt (le_argmaxFirst x n j hj) hc
    · rw [if_neg hc] at hj ⊢
      exact ih j hj

theorem maskedLogSoftmax_len_one (s m : ℕ → ℝ) (hm : m 0 = 1) :
    maskedLogSoftmax s m 1 0 = 0 := by
  unfold maskedLogSoftmax maskedSoftmax
  rw [Finset.sum_range_one, hm, one_mul, if_neg (Real.exp_pos (s 0)).ne',
    div_self (Real.exp_pos (s 0)).ne', Real.log_one]

theorem maskedSoftmax_len_one (s m : ℕ → ℝ) (hm : m 0 = 1) :
    maskedSoftmax s m 1 0 = 1 := by
  unfold maskedSoftmax
  rw [Finset.sum_range_one, hm, one_mul, if_neg (Real.exp_pos (s 0)).ne',
    div_self (Real.exp_pos (s 0)).ne']

theorem softmax_nonneg (s : ℕ → ℝ) (n i : ℕ) : 0 ≤ softmax s n i :=
  div_nonneg (Real.exp_pos _).le (Finset.sum_nonneg fun _ _ => (Real.exp_pos _).le)

theorem softmax_sum_eq_one (s : ℕ → ℝ) {n : ℕ} (hn : 1 ≤ n) :
    ∑ i ∈ Finset.range n, softmax s n i = 1 := by
  unfold softmax
  rw [← Finset.sum_div]
  exact div_self (Finset.sum_pos (fun i _ => Real.exp_pos _)
    (Finset.nonempty_range_iff.mpr (by omega))).ne'

theorem list_sum_nonpos {l : List ℝ} (h : ∀ x ∈ l, x ≤ 0) : l.sum ≤ 0 := by
  induction l with
  | nil => simp
  | cons a t ih =>
    have ha := h a (by simp)
    have ht := ih fun x hx => h x (by simp [hx])
    simp only [List.sum_cons]
    linarith

theorem argmaxFirst_one (x : ℕ → ℝ) : argmaxFirst x 1 = 0 := by
  show (if x (argmaxFirst x 0) < x 0 then 0 else argmaxFirst x 0) = 0
  show (if x 0 < x 0 then 0 else 0) = 0
  exact ite_self 0

theorem argmaxFirst_two (x : ℕ → ℝ) : argmaxFirst x 2 = if x 0 < x 1 then 1 else 0 := by
  show (if x (argmaxFirst x 1) < x 1 then 1 else argmaxFirst x 1) = _
  rw [argmaxFirst_one]

/-! Claim theorems. -/

/-- C3: on start logits `[0.1, 0.5, 0.2, 0.9, 0.1]` and end logits
`[0.05, 0.2, 0.6, 0.1, 0.9]` with no masking, the best-span search returns
the span `(3, 4)` with combined score `1.8`, the running-maximum dynamic
program beating the locally-appealing pair `(1, 2)` whose score is `1.1`. -/
theorem C3_best_span_on_spec_example :
    getBestSpan
        (fun i => if i = 0 then 0.1 else if i = 1 then 0.5
          else if i = 2 then 0.2 else if i = 3 then 0.9 else 0.1)
        (fun i => if i = 0 then 0.05 else if i = 1 then 0.2
          else if i = 2 then 0.6 else if i = 3 then 0.1 else 0.9) 5
      = (3, 4, 1.8)
    ∧ (0.5 : ℝ) + 0.6 = 1.1 := by
  constructor
  · show (getBestSpanAux _ _ 4).2 = (3, 4, 1.8)
    norm_num [getBestSpanAux]
  · norm_num

/-- C10: supplying the span annotation tensor to `forward` while leaving
any other annotation tensor of the variant's configuration `None`
(`answer_as_plus_minus_combinations` or `answer_as_counts` in
`QaNetForDrop`, `answer_as_question_spans` in `QaNetPlusQuestionSpan`)
raises an exception instead of returning a loss. -/
theorem C10_missing_sibling_tensors_raise :
    (∀ (hs : List QaNetForDrop.Heads) (sp : List ((ℕ → ℤ × ℤ) × ℕ))
        (ct : Option (List ((ℕ → ℤ) × ℕ))),
      QaNetForDrop.forwardLoss ⟨hs, some sp, none, ct⟩
        = Except.error "AttributeError: NoneType object has no attribute sum")
    ∧ (∀ (hs : List QaNetForDrop.Heads) (sp : List ((ℕ → ℤ × ℤ) × ℕ))
        (cb : List ((ℕ → ℕ → ℤ) × ℕ)),
      QaNetForDrop.forwardLoss ⟨hs, some sp, some cb, none⟩
        = Except.error "AttributeError: bool object has no attribute float")
    ∧ (∀ (hs : List QaNetPlusQuestionSpan.HeadsOnly)
        (ps : List ((ℕ → ℤ × ℤ) × ℕ)),
      QaNetPlusQuestionSpan.forwardLoss hs (some ps) none
        = Except.error "TypeError: NoneType object is not subscriptable") :=
  ⟨fun _ _ _ => rfl, fun _ _ _ => rfl, fun _ _ => rfl⟩

/-- C6 counterexample: in `QaNetForDrop` (lines 141-142) the pooling
weights are the raw linear scores times the mask, so with scores `[2, -3]`
and an all-ones mask the weight at position 1 is negative and the weights
sum to `-1`, not `1` — the claimed masked-softmax properties fail. -/
theorem C6_counterexample :
    ¬ (0 ≤ QaNetForDrop.passagePoolingWeights
        (fun i => if i = 0 then 2 else -3) (fun _ => 1) 1)
    ∧ (∑ i ∈ Finset.range 2, QaNetForDrop.passagePoolingWeights
        (fun i => if i = 0 then 2 else -3) (fun _ => 1) i) ≠ 1 := by
  constructor
  · norm_num [QaNetForDrop.passagePoolingWeights]
  · rw [Finset.sum_range_succ, Finset.sum_range_one]
    norm_num [QaNetForDrop.passagePoolingWeights]

/-- C6 amended: in `QaNetPlusQuestionSpan` the pooling weights are a
masked softmax of the linear scores — non-negative, zero at masked
positions, summing to 1 over valid positions when one exists and to 0
when none does; in `QaNetForDrop` the pooling weights are only the raw
linear scores multiplied by the mask (so they vanish at masked positions
but are neither non-negative nor normalized in general). -/
theorem C6_amended (scores mask : ℕ → ℝ) (n : ℕ)
    (hm : ∀ i, mask i = 0 ∨ mask i = 1) :
    ((∀ i, 0 ≤ QaNetPlusQuestionSpan.passagePoolingWeights scores mask n i)
      ∧ (∀ i, mask i = 0 →
          QaNetPlusQuestionSpan.passagePoolingWeights scores mask n i = 0)
      ∧ (∀ i, i < n → mask i = 1 →
          (∑ j ∈ Finset.range n,
            QaNetPlusQuestionSpan.passagePoolingWeights scores mask n j) = 1)
      ∧ ((∀ i < n, mask i = 0) →
          (∑ j ∈ Finset.range n,
            QaNetPlusQuestionSpan.passagePoolingWeights scores mask n j) = 0))
    ∧ (∀ i, QaNetForDrop.passagePoolingWeights scores mask i = scores i * mask i) := by
  have hm' : ∀ i, 0 ≤ mask i := fun i => by rcases hm i with h | h <;> simp [h]
  exact ⟨⟨fun i => maskedSoftmax_nonneg hm' i,
    fun i hi => maskedSoftmax_eq_zero_of_mask hi,
    fun i hin hi => maskedSoftmax_sum_eq_one hm' hin hi,
    fun hall => maskedSoftmax_sum_eq_zero hall⟩, fun _ => rfl⟩

/-- C6 witness: on a 1-position sequence with a valid mask the
`QaNetPlusQuestionSpan` pooling weights sum to 1. -/
theorem C6_witness :
    (∑ j ∈ Finset.range 1,
      QaNetPlusQuestionSpan.passagePoolingWeights (fun _ => 0) (fun _ => 1) 1 j) = 1 :=
  (C6_amended (fun _ => 0) (fun _ => 1) 1 (fun _ => Or.inr rfl)).1.2.2.1 0
    (by omega) rfl

/-- C2 counterexample: in `QaNetMarginal` (and likewise
`QaNetPlusQuestionSpan`) a padded span slot enters the log-sum-exp at the
sentinel `-1e10` rather than being excluded, so appending the padded slot
`(-1, -1)` to a one-span example changes the computed marginal
log-likelihood (from `0` to `log (1 + exp (-1e10))`) and hence the loss. -/
theorem C2_counterexample :
    QaNetMarginal.logMarginalLikelihood exC2a ≠ QaNetMarginal.logMarginalLikelihood exC2b
    ∧ QaNetMarginal.batchLoss [exC2a] ≠ QaNetMarginal.batchLoss [exC2b] := by
  have hsa : QaNetMarginal.spanStartLogProbs exC2a 0 = 0 :=
    maskedLogSoftmax_len_one _ _ rfl
  have hea : QaNetMarginal.spanEndLogProbs exC2a 0 = 0 :=
    maskedLogSoftmax_len_one _ _ rfl
  have hsb : QaNetMarginal.spanStartLogProbs exC2b 0 = 0 :=
    maskedLogSoftmax_len_one _ _ rfl
  have heb : QaNetMarginal.spanEndLogProbs exC2b 0 = 0 :=
    maskedLogSoftmax_len_one _ _ rfl
  have h0a : QaNetMarginal.logLikelihoodForSpans exC2a 0 = 0 := by
    show (QaNetMarginal.spanStartLogProbs exC2a 0 + QaNetMarginal.spanEndLogProbs exC2a 0) * 1
      + (-1e10) * (1 - 1) = 0
    rw [hsa, hea]
    ring
  have h0b : QaNetMarginal.logLikelihoodForSpans exC2b 0 = 0 := by
    show (QaNetMarginal.spanStartLogProbs exC2b 0 + QaNetMarginal.spanEndLogProbs exC2b 0) * 1
      + (-1e10) * (1 - 1) = 0
    rw [hsb, heb]
    ring
  have h1b : QaNetMarginal.logLikelihoodForSpans exC2b 1 = -1e10 := by
    show (QaNetMarginal.spanStartLogProbs exC2b 0 + QaNetMarginal.spanEndLogProbs exC2b 0) * 0
      + (-1e10) * (1 - 0) = -1e10
    ring
  have hma : QaNetMarginal.logMarginalLikelihood exC2a = 0 := by
    unfold QaNetMarginal.logMarginalLikelihood
    rw [logsumexp_eq_log_sum_exp (by decide : 1 ≤ exC2a.numSpanSlots),
      show exC2a.numSpanSlots = 1 from rfl, Finset.sum_range_one, h0a, Real.exp_zero,
      Real.log_one]
  have hmb : QaNetMarginal.logMarginalLikelihood exC2b
      = Real.log (1 + Real.exp (-1e10)) := by
    unfold QaNetMarginal.logMarginalLikelihood
    rw [logsumexp_eq_log_sum_exp (by decide : 1 ≤ exC2b.numSpanSlots),
      show exC2b.numSpanSlots = 2 from rfl, Finset.sum_range_succ, Finset.sum_range_one,
      h0b, h1b, Real.exp_zero]
  have hpos : 0 < Real.log (1 + Real.exp (-1e10)) :=
    Real.log_pos (lt_add_of_pos_right 1 (Real.exp_pos _))
  constructor
  · rw [hma, hmb]
    exact hpos.ne
  · have hla : QaNetMarginal.batchLoss [exC2a] = 0 := by
      simp [QaNetMarginal.batchLoss, hma]
    have hlb : QaNetMarginal.batchLoss [exC2b] = -Real.log (1 + Real.exp (-1e10)) := by
      simp [QaNetMarginal.batchLoss, hmb]
    rw [hla, hlb]
    exact (neg_lt_zero.mpr hpos).ne'

/-- C2 amended: in `QaNetForDrop`, whose loss block works in probability
space, padded entries contribute exactly zero: appending a padded span
slot `(-1, e)`, an all-zero combination row, or a `-1` count slot leaves
the per-type likelihood sums and the per-example marginal likelihood
exactly unchanged.  In `QaNetMarginal` and `QaNetPlusQuestionSpan` a
padded slot instead enters the log-sum-exp at the sentinel `-1e10`, so
the marginal is unchanged only up to a perturbation of size at most
`exp (-1e10)` per padded slot, not exactly. -/
theorem C2_amended :
    (∀ (h : QaNetForDrop.Heads) (spans : ℕ → ℤ × ℤ) (n : ℕ) (e : ℤ),
      QaNetForDrop.spanLikelihoodSum h (fun j => if j = n then (-1, e) else spans j) (n + 1)
        = QaNetForDrop.spanLikelihoodSum h spans n)
    ∧ (∀ (h : QaNetForDrop.Heads) (combos : ℕ → ℕ → ℤ) (n : ℕ),
      QaNetForDrop.combinationLikelihoodSum h
          (fun c slot => if c = n then 0 else combos c slot) (n + 1)
        = QaNetForDrop.combinationLikelihoodSum h combos n)
    ∧ (∀ (h : QaNetForDrop.Heads) (counts : ℕ → ℤ) (n : ℕ),
      QaNetForDrop.countLikelihoodSum h (fun j => if j = n then -1 else counts j) (n + 1)
        = QaNetForDrop.countLikelihoodSum h counts n)
    ∧ (∀ (h : QaNetForDrop.Heads) (spans : ℕ → ℤ × ℤ) (n : ℕ) (e : ℤ)
        (combos : ℕ → ℕ → ℤ) (nc : ℕ) (counts : ℕ → ℤ) (nct : ℕ),
      QaNetForDrop.marginalLikelihood h
          (fun j => if j = n then (-1, e) else spans j) (n + 1)
          (fun c slot => if c = nc then 0 else combos c slot) (nc + 1)
          (fun j => if j = nct then -1 else counts j) (nct + 1)
        = QaNetForDrop.marginalLikelihood h spans n combos nc counts nct) := by
  have hspan : ∀ (h : QaNetForDrop.Heads) (spans : ℕ → ℤ × ℤ) (n : ℕ) (e : ℤ),
      QaNetForDrop.spanLikelihoodSum h (fun j => if j = n then (-1, e) else spans j) (n + 1)
        = QaNetForDrop.spanLikelihoodSum h spans n := by
    intro h spans n e
    unfold QaNetForDrop.spanLikelihoodSum
    rw [Finset.sum_range_succ]
    have hterm : QaNetForDrop.spanLikelihood h (fun j => if j = n then (-1, e) else spans j) n
        = 0 := by
      unfold QaNetForDrop.spanLikelihood
      simp
    rw [hterm, add_zero]
    exact Finset.sum_congr rfl fun j hj => by
      have hne : j ≠ n := Nat.ne_of_lt (Finset.mem_range.mp hj)
      simp [QaNetForDrop.spanLikelihood, hne]
  have hcomb : ∀ (h : QaNetForDrop.Heads) (combos : ℕ → ℕ → ℤ) (n : ℕ),
      QaNetForDrop.combinationLikelihoodSum h
          (fun c slot => if c = n then 0 else combos c slot) (n + 1)
        = QaNetForDrop.combinationLikelihoodSum h combos n := by
    intro h combos n
    unfold QaNetForDrop.combinationLikelihoodSum
    rw [Finset.sum_range_succ]
    have hterm : QaNetForDrop.combinationLikelihood h
        (fun c slot => if c = n then 0 else combos c slot) n = 0 := by
      unfold QaNetForDrop.combinationLikelihood QaNetForDrop.combinationMask
      simp
    rw [hterm, add_zero]
    exact Finset.sum_congr rfl fun c hc => by
      have hne : c ≠ n := Nat.ne_of_lt (Finset.mem_range.mp hc)
      simp [QaNetForDrop.combinationLikelihood, QaNetForDrop.combinationMask,
        QaNetForDrop.combinationSlotLikelihood, hne]
  have hcount : ∀ (h : QaNetForDrop.Heads) (counts : ℕ → ℤ) (n : ℕ),
      QaNetForDrop.countLikelihoodSum h (fun j => if j = n then -1 else counts j) (n + 1)
        = QaNetForDrop.countLikelihoodSum h counts n := by
    intro h counts n
    unfold QaNetForDrop.countLikelihoodSum
    rw [Finset.sum_range_succ]
    have hterm : QaNetForDrop.countLikelihood h (fun j => if j = n then -1 else counts j) n
        = 0 := by
      unfold QaNetForDrop.countLikelihood QaNetForDrop.countMask
      simp
    rw [hterm, add_zero]
    exact Finset.sum_congr rfl fun j hj => by
      have hne : j ≠ n := Nat.ne_of_lt (Finset.mem_range.mp hj)
      simp [QaNetForDrop.countLikelihood, QaNetForDrop.countMask, hne]
  exact ⟨hspan, hcomb, hcount, fun h spans n e combos nc counts nct => by
    unfold QaNetForDrop.marginalLikelihood
    rw [hspan h spans n e, hcomb h combos nc, hcount h counts nct]⟩

/-- C9 counterexample: with a single number slot whose numbers mask is 0
and a non-padded annotated combination, the computed combination
likelihood is `1 + 1e-10` — the epsilon guard makes it differ from the
claimed exact value 1. -/
theorem C9_counterexample :
    QaNetForDrop.combinationLikelihood hC9 (fun _ _ => 1) 0 ≠ 1 := by
  have h1 : QaNetForDrop.combinationSlotLikelihood hC9 (fun _ _ => 1) 0 0 = 1 := by
    simp [QaNetForDrop.combinationSlotLikelihood, QaNetForDrop.numberSignProbs, hC9]
  have h2 : QaNetForDrop.combinationLikelihood hC9 (fun _ _ => 1) 0
      = Real.exp (Real.log (1 + 1e-10)) * 1 := by
    simp only [QaNetForDrop.combinationLikelihood, QaNetForDrop.combinationMask]
    have hn : hC9.numNumbers = 1 := rfl
    rw [hn, Finset.sum_range_one, h1, Finset.sum_range_one]
    norm_num
  rw [h2, Real.exp_log (by norm_num), mul_one]
  norm_num

/-- C9 amended: if the numbers mask has zero valid numbers then every
non-padded annotated sign-combination's computed likelihood equals
`(1 + 1e-10) ^ (number of number slots)` — each masked slot contributes
the multiplicative identity 1, but the `1e-10` log-guard is added per
slot, so the value is exactly 1 only up to that guard. -/
theorem C9_amended (h : QaNetForDrop.Heads) (combos : ℕ → ℕ → ℤ) (c : ℕ)
    (hmask : ∀ slot, h.numbersMask slot = 0)
    (hrow : 0 < ∑ slot ∈ Finset.range h.numNumbers, combos c slot) :
    QaNetForDrop.combinationLikelihood h combos c = (1 + 1e-10) ^ h.numNumbers := by
  have h1 : ∀ slot, QaNetForDrop.combinationSlotLikelihood h combos slot c = 1 := by
    intro slot
    unfold QaNetForDrop.combinationSlotLikelihood
    rw [hmask slot]
    ring
  have h2 : (∑ slot ∈ Finset.range h.numNumbers,
      Real.log (QaNetForDrop.combinationSlotLikelihood h combos slot c + 1e-10))
      = (h.numNumbers : ℝ) * Real.log (1 + 1e-10) := by
    rw [Finset.sum_congr rfl fun slot _ => by rw [h1 slot], Finset.sum_const,
      Finset.card_range, nsmul_eq_mul]
  simp only [QaNetForDrop.combinationLikelihood, QaNetForDrop.combinationMask]
  rw [h2, Real.exp_nat_mul, Real.exp_log (by norm_num), if_pos hrow, mul_one]

/-- C9 witness: the amended statement evaluated on concrete heads with one
masked number slot and the annotated combination row `[1]`. -/
theorem C9_witness :
    QaNetForDrop.combinationLikelihood hC9 (fun _ _ => 1) 0 = (1 + 1e-10) ^ hC9.numNumbers :=
  C9_amended hC9 (fun _ _ => 1) 0 (fun _ => rfl) (by decide)

/-- C8: appending one additional derivation to a type's annotated set
never decreases that type's computed marginal, for every answer type: in
`QaNetMarginal` the log-sum-exp over span slots is monotone under
appending a slot, and in `QaNetForDrop` the span, arithmetic-combination
and count likelihood sums are each monotone under appending a slot (each
appended slot contributes a non-negative likelihood term). -/
theorem C8_append_derivation_monotone :
    (∀ (ex : QaNetMarginal.Example) (sp : ℤ × ℤ), 1 ≤ ex.numSpanSlots →
      QaNetMarginal.logMarginalLikelihood ex
        ≤ QaNetMarginal.logMarginalLikelihood
            { ex with
              spans := fun j => if j = ex.numSpanSlots then sp else ex.spans j,
              numSpanSlots := ex.numSpanSlots + 1 })
    ∧ (∀ (h : QaNetForDrop.Heads) (spans : ℕ → ℤ × ℤ) (n : ℕ) (sp : ℤ × ℤ),
      (∀ i, h.passageMask i = 0 ∨ h.passageMask i = 1) →
      QaNetForDrop.spanLikelihoodSum h spans n
        ≤ QaNetForDrop.spanLikelihoodSum h (fun j => if j = n then sp else spans j) (n + 1))
    ∧ (∀ (h : QaNetForDrop.Heads) (combos : ℕ → ℕ → ℤ) (n : ℕ) (row : ℕ → ℤ),
      QaNetForDrop.combinationLikelihoodSum h combos n
        ≤ QaNetForDrop.combinationLikelihoodSum h
            (fun c slot => if c = n then row slot else combos c slot) (n + 1))
    ∧ (∀ (h : QaNetForDrop.Heads) (counts : ℕ → ℤ) (n : ℕ) (c : ℤ),
      QaNetForDrop.countLikelihoodSum h counts n
        ≤ QaNetForDrop.countLikelihoodSum h (fun j => if j = n then c else counts j) (n + 1)) := by
  refine ⟨?_, ?_, ?_, ?_⟩
  · intro ex sp hn
    unfold QaNetMarginal.logMarginalLikelihood
    rw [logsumexp_eq_log_sum_exp hn, logsumexp_eq_log_sum_exp (show 1 ≤ ex.numSpanSlots + 1 by omega)]
    have hpos : 0 < ∑ j ∈ Finset.range ex.numSpanSlots,
        Real.exp (QaNetMarginal.logLikelihoodForSpans ex j) :=
      Finset.sum_pos (fun j _ => Real.exp_pos _) (Finset.nonempty_range_iff.mpr (by omega))
    apply Real.log_le_log hpos
    have hcong : ∀ j ∈ Finset.range ex.numSpanSlots,
        Real.exp (QaNetMarginal.logLikelihoodForSpans ex j)
          = Real.exp (QaNetMarginal.logLikelihoodForSpans
              { ex with
                spans := fun j => if j = ex.numSpanSlots then sp else ex.spans j,
                numSpanSlots := ex.numSpanSlots + 1 } j) := by
      intro j hj
      have hne : j ≠ ex.numSpanSlots := Nat.ne_of_lt (Finset.mem_range.mp hj)
      simp [QaNetMarginal.logLikelihoodForSpans, QaNetMarginal.spanMask,
        QaNetMarginal.clampedSpanStart, QaNetMarginal.clampedSpanEnd,
        QaNetMarginal.spanStartLogProbs, QaNetMarginal.spanEndLogProbs,
        replaceMaskedValues, hne]
    rw [Finset.sum_congr rfl hcong, Finset.sum_range_succ]
    exact le_add_of_nonneg_right (Real.exp_pos _).le
  · intro h spans n sp hm
    have hm' : ∀ i, 0 ≤ h.passageMask i := fun i => by rcases hm i with h1 | h1 <;> simp [h1]
    unfold QaNetForDrop.spanLikelihoodSum
    rw [Finset.sum_range_succ]
    have hcong : ∀ j ∈ Finset.range n,
        QaNetForDrop.spanLikelihood h spans j
          = QaNetForDrop.spanLikelihood h (fun j => if j = n then sp else spans j) j := by
      intro j hj
      have hne : j ≠ n := Nat.ne_of_lt (Finset.mem_range.mp hj)
      simp [QaNetForDrop.spanLikelihood, hne]
    rw [Finset.sum_congr rfl hcong]
    refine le_add_of_nonneg_right ?_
    unfold QaNetForDrop.spanLikelihood
    refine mul_nonneg (mul_nonneg ?_ ?_) ?_
    · exact maskedSoftmax_nonneg hm' _
    · exact maskedSoftmax_nonneg hm' _
    · split <;> norm_num
  · intro h combos n row
    unfold QaNetForDrop.combinationLikelihoodSum
    rw [Finset.sum_range_succ]
    have hcong : ∀ c ∈ Finset.range n,
        QaNetForDrop.combinationLikelihood h combos c
          = QaNetForDrop.combinationLikelihood h
              (fun c slot => if c = n then row slot else combos c slot) c := by
      intro c hc
      have hne : c ≠ n := Nat.ne_of_lt (Finset.mem_range.mp hc)
      simp [QaNetForDrop.combinationLikelihood, QaNetForDrop.combinationMask,
        QaNetForDrop.combinationSlotLikelihood, hne]
    rw [Finset.sum_congr rfl hcong]
    refine le_add_of_nonneg_right ?_
    unfold QaNetForDrop.combinationLikelihood
    refine mul_nonneg (Real.exp_pos _).le ?_
    unfold QaNetForDrop.combinationMask
    split <;> norm_num
  · intro h counts n c
    unfold QaNetForDrop.countLikelihoodSum
    rw [Finset.sum_range_succ]
    have hcong : ∀ j ∈ Finset.range n,
        QaNetForDrop.countLikelihood h counts j
          = QaNetForDrop.countLikelihood h (fun j => if j = n then c else counts j) j := by
      intro j hj
      have hne : j ≠ n := Nat.ne_of_lt (Finset.mem_range.mp hj)
      simp [QaNetForDrop.countLikelihood, QaNetForDrop.countMask, hne]
    rw [Finset.sum_congr rfl hcong]
    refine le_add_of_nonneg_right ?_
    unfold QaNetForDrop.countLikelihood
    refine mul_nonneg (softmax_nonneg _ _ _) ?_
    unfold QaNetForDrop.countMask
    split <;> norm_num

/-- C8 witness: the monotonicity statements of every answer type
evaluated on concrete one-token examples, appending a valid span, a
non-padded combination row and a valid count. -/
theorem C8_witness :
    QaNetMarginal.logMarginalLikelihood exC8W
      ≤ QaNetMarginal.logMarginalLikelihood
          { exC8W with
            spans := fun j => if j = exC8W.numSpanSlots then (0, 0) else exC8W.spans j,
            numSpanSlots := exC8W.numSpanSlots + 1 }
    ∧ QaNetForDrop.spanLikelihoodSum hC8W (fun _ => (0, 0)) 1
      ≤ QaNetForDrop.spanLikelihoodSum hC8W
          (fun j => if j = 1 then (0, 0) else (0, 0)) 2
    ∧ QaNetForDrop.combinationLikelihoodSum hC8W (fun _ _ => 0) 0
      ≤ QaNetForDrop.combinationLikelihoodSum hC8W
          (fun c _ => if c = 0 then 1 else 0) 1
    ∧ QaNetForDrop.countLikelihoodSum hC8W (fun _ => 0) 0
      ≤ QaNetForDrop.countLikelihoodSum hC8W (fun j => if j = 0 then 1 else 0) 1 :=
  ⟨C8_append_derivation_monotone.1 exC8W (0, 0) (by decide),
    C8_append_derivation_monotone.2.1 hC8W (fun _ => (0, 0)) 1 (0, 0) (fun _ => Or.inr rfl),
    C8_append_derivation_monotone.2.2.1 hC8W (fun _ _ => 0) 0 (fun _ => 1),
    C8_append_derivation_monotone.2.2.2 hC8W (fun _ => 0) 0 1⟩

/-- C1 counterexample: on a batch whose one example has a valid passage
span, a padded passage-span slot and a fully padded question-span tensor,
the loss the code computes differs from the claim's formula: the code
keeps padded slots inside the log-sum-exp at the sentinel `-1e10` and
keeps the question-span type in the outer log-sum-exp although it is
absent from the example's annotation, adding `exp (-1e10)`-sized mass. -/
theorem C1_counterexample :
    QaNetPlusQuestionSpan.marginalLogLikelihood exC1
      ≠ QaNetPlusQuestionSpan.claimCombinedMarginal exC1
    ∧ QaNetPlusQuestionSpan.batchLoss [exC1]
      ≠ QaNetPlusQuestionSpan.claimBatchLoss [exC1] := by
  have hll0 : QaNetPlusQuestionSpan.logLikelihoodForPassageSpans exC1 0 = 0 := by
    show (maskedLogSoftmax exC1.passageStartLogits exC1.passageMask 1 0
        + maskedLogSoftmax exC1.passageEndLogits exC1.passageMask 1 0) * 1
      + (-1e10) * (1 - 1) = 0
    rw [maskedLogSoftmax_len_one _ _ rfl, maskedLogSoftmax_len_one _ _ rfl]
    ring
  have hll1 : QaNetPlusQuestionSpan.logLikelihoodForPassageSpans exC1 1 = -1e10 := by
    show (maskedLogSoftmax exC1.passageStartLogits exC1.passageMask 1 0
        + maskedLogSoftmax exC1.passageEndLogits exC1.passageMask 1 0) * 0
      + (-1e10) * (1 - 0) = -1e10
    ring
  have hlq0 : QaNetPlusQuestionSpan.logLikelihoodForQuestionSpans exC1 0 = -1e10 := by
    show (maskedLogSoftmax exC1.questionStartLogits exC1.questionMask 1 0
        + maskedLogSoftmax exC1.questionEndLogits exC1.questionMask 1 0) * 0
      + (-1e10) * (1 - 0) = -1e10
    ring
  have hm0 : QaNetPlusQuestionSpan.logMarginalLikelihoodForPassageSpans exC1
      = QaNetPlusQuestionSpan.gateLogProbs exC1 0
        + Real.log (1 + Real.exp (-1e10)) := by
    unfold QaNetPlusQuestionSpan.logMarginalLikelihoodForPassageSpans
    rw [logsumexp_eq_log_sum_exp (by decide : 1 ≤ exC1.numPassageSpanSlots),
      show exC1.numPassageSpanSlots = 2 from rfl, Finset.sum_range_succ,
      Finset.sum_range_one, hll0, hll1, Real.exp_zero]
  have hm1 : QaNetPlusQuestionSpan.logMarginalLikelihoodForQuestionSpans exC1
      = QaNetPlusQuestionSpan.gateLogProbs exC1 0 + (-1e10) := by
    unfold QaNetPlusQuestionSpan.logMarginalLikelihoodForQuestionSpans
    rw [logsumexp_eq_log_sum_exp (by decide : 1 ≤ exC1.numQuestionSpanSlots),
      show exC1.numQuestionSpanSlots = 1 from rfl, Finset.sum_range_one, hlq0,
      Real.log_exp]
    rfl
  have hcode : QaNetPlusQuestionSpan.marginalLogLikelihood exC1
      = Real.log
          (Real.exp (QaNetPlusQuestionSpan.gateLogProbs exC1 0
              + Real.log (1 + Real.exp (-1e10)))
            + Real.exp (QaNetPlusQuestionSpan.gateLogProbs exC1 0 + (-1e10))) := by
    unfold QaNetPlusQuestionSpan.marginalLogLikelihood
    rw [logsumexp_eq_log_sum_exp (by norm_num : 1 ≤ 2), Finset.sum_range_succ,
      Finset.sum_range_one]
    simp only [QaNetPlusQuestionSpan.stackedTypeMarginals, if_pos rfl,
      if_neg (by omega : (1 : ℕ) ≠ 0), if_true]
    rw [hm0, hm1]
  have hvp : QaNetPlusQuestionSpan.validPassageSlots exC1 = {0} := by decide
  have hvq : QaNetPlusQuestionSpan.validQuestionSlots exC1 = ∅ := by decide
  have hcll : QaNetPlusQuestionSpan.claimPassageSlotLogLikelihood exC1 0 = 0 := by
    show maskedLogSoftmax exC1.passageStartLogits exC1.passageMask 1 0
      + maskedLogSoftmax exC1.passageEndLogits exC1.passageMask 1 0 = 0
    rw [maskedLogSoftmax_len_one _ _ rfl, maskedLogSoftmax_len_one _ _ rfl]
    ring
  have hts : QaNetPlusQuestionSpan.claimTypeScore exC1 0
      = QaNetPlusQuestionSpan.gateLogProbs exC1 0 := by
    unfold QaNetPlusQuestionSpan.claimTypeScore
    rw [if_pos rfl, hvp, Finset.sum_singleton, hcll, Real.exp_zero, Real.log_one,
      add_zero]
  have hfil : ((Finset.range 2).filter
      (fun t => if t = 0 then (QaNetPlusQuestionSpan.validPassageSlots exC1).Nonempty
        else (QaNetPlusQuestionSpan.validQuestionSlots exC1).Nonempty)) = {0} := by
    decide
  have hclaim : QaNetPlusQuestionSpan.claimCombinedMarginal exC1
      = QaNetPlusQuestionSpan.gateLogProbs exC1 0 := by
    unfold QaNetPlusQuestionSpan.claimCombinedMarginal
    rw [hfil, Finset.sum_singleton, hts, Real.log_exp]
  have hgt : QaNetPlusQuestionSpan.claimCombinedMarginal exC1
      < QaNetPlusQuestionSpan.marginalLogLikelihood exC1 := by
    rw [hclaim, hcode]
    have e1 : Real.exp (QaNetPlusQuestionSpan.gateLogProbs exC1 0
        + Real.log (1 + Real.exp (-1e10)))
        = Real.exp (QaNetPlusQuestionSpan.gateLogProbs exC1 0)
          * (1 + Real.exp (-1e10)) := by
      rw [Real.exp_add, Real.exp_log (by positivity)]
    have hexpand : Real.exp (QaNetPlusQuestionSpan.gateLogProbs exC1 0)
        * (1 + Real.exp (-1e10))
        = Real.exp (QaNetPlusQuestionSpan.gateLogProbs exC1 0)
          + Real.exp (QaNetPlusQuestionSpan.gateLogProbs exC1 0) * Real.exp (-1e10) := by
      ring
    have h1 : Real.exp (QaNetPlusQuestionSpan.gateLogProbs exC1 0)
        < Real.exp (QaNetPlusQuestionSpan.gateLogProbs exC1 0
            + Real.log (1 + Real.exp (-1e10)))
          + Real.exp (QaNetPlusQuestionSpan.gateLogProbs exC1 0 + (-1e10)) := by
      rw [e1, hexpand]
      have h2 : 0 < Real.exp (QaNetPlusQuestionSpan.gateLogProbs exC1 0)
          * Real.exp (-1e10) :=
        mul_pos (Real.exp_pos _) (Real.exp_pos _)
      have h3 : 0 < Real.exp (QaNetPlusQuestionSpan.gateLogProbs exC1 0 + (-1e10)) :=
        Real.exp_pos _
      linarith
    calc QaNetPlusQuestionSpan.gateLogProbs exC1 0
        = Real.log (Real.exp (QaNetPlusQuestionSpan.gateLogProbs exC1 0)) :=
          (Real.log_exp _).symm
      _ < _ := Real.log_lt_log (Real.exp_pos _) h1
  refine ⟨hgt.ne', ?_⟩
  have hbl : QaNetPlusQuestionSpan.batchLoss [exC1]
      = -QaNetPlusQuestionSpan.marginalLogLikelihood exC1 := by
    simp [QaNetPlusQuestionSpan.batchLoss]
  have hcl : QaNetPlusQuestionSpan.claimBatchLoss [exC1]
      = -QaNetPlusQuestionSpan.claimCombinedMarginal exC1 := by
    simp [QaNetPlusQuestionSpan.claimBatchLoss]
  rw [hbl, hcl]
  exact fun habs => hgt.ne' (neg_injective habs)

/-- C1 amended: in `QaNetPlusQuestionSpan` the per-example loss equals
the negative of the log-sum-exp over *both configured* answer types of
(the gate's log-probability for the type plus the log-sum-exp over *all*
of that type's annotation slots, a padded slot entering at the sentinel
log-likelihood `-1e10` instead of being excluded), and the batch loss is
the mean of these per-example losses.  (`QaNetMarginal` computes the same
without a gate for its single type; `QaNetForDrop` computes the same
marginal in probability space, where padded entries contribute exactly
zero, with a `1e-10` guard added inside the final logarithm.) -/
theorem C1_amended :
    (∀ ex : QaNetPlusQuestionSpan.Example,
      1 ≤ ex.numPassageSpanSlots → 1 ≤ ex.numQuestionSpanSlots →
      QaNetPlusQuestionSpan.marginalLogLikelihood ex
        = QaNetPlusQuestionSpan.amendedCombinedMarginal ex)
    ∧ (∀ b : List QaNetPlusQuestionSpan.Example,
      (∀ ex ∈ b, 1 ≤ ex.numPassageSpanSlots ∧ 1 ≤ ex.numQuestionSpanSlots) →
      QaNetPlusQuestionSpan.batchLoss b
        = -((b.map QaNetPlusQuestionSpan.amendedCombinedMarginal).sum / b.length)) := by
  have key : ∀ ex : QaNetPlusQuestionSpan.Example,
      1 ≤ ex.numPassageSpanSlots → 1 ≤ ex.numQuestionSpanSlots →
      QaNetPlusQuestionSpan.marginalLogLikelihood ex
        = QaNetPlusQuestionSpan.amendedCombinedMarginal ex := by
    intro ex hp hq
    have h1 : QaNetPlusQuestionSpan.logMarginalLikelihoodForPassageSpans ex
        = QaNetPlusQuestionSpan.gateLogProbs ex 0
          + Real.log (∑ j ∈ Finset.range ex.numPassageSpanSlots,
              Real.exp (QaNetPlusQuestionSpan.amendedPassageSlotLogLikelihood ex j)) := by
      unfold QaNetPlusQuestionSpan.logMarginalLikelihoodForPassageSpans
      rw [logsumexp_eq_log_sum_exp hp]
      congr 2
      refine Finset.sum_congr rfl fun j _ => ?_
      congr 1
      by_cases hj : (ex.passageSpans j).1 = -1
      · simp [QaNetPlusQuestionSpan.logLikelihoodForPassageSpans,
          QaNetPlusQuestionSpan.amendedPassageSlotLogLikelihood,
          QaNetPlusQuestionSpan.passageSpanMask, replaceMaskedValues, hj]
      · simp [QaNetPlusQuestionSpan.logLikelihoodForPassageSpans,
          QaNetPlusQuestionSpan.amendedPassageSlotLogLikelihood,
          QaNetPlusQuestionSpan.passageSpanMask, replaceMaskedValues,
          QaNetPlusQuestionSpan.claimPassageSlotLogLikelihood, hj]
    have h2 : QaNetPlusQuestionSpan.logMarginalLikelihoodForQuestionSpans ex
        = QaNetPlusQuestionSpan.gateLogProbs ex 1
          + Real.log (∑ j ∈ Finset.range ex.numQuestionSpanSlots,
              Real.exp (QaNetPlusQuestionSpan.amendedQuestionSlotLogLikelihood ex j)) := by
      unfold QaNetPlusQuestionSpan.logMarginalLikelihoodForQuestionSpans
      rw [logsumexp_eq_log_sum_exp hq]
      congr 2
      refine Finset.sum_congr rfl fun j _ => ?_
      congr 1
      by_cases hj : (ex.questionSpans j).1 = -1
      · simp [QaNetPlusQuestionSpan.logLikelihoodForQuestionSpans,
          QaNetPlusQuestionSpan.amendedQuestionSlotLogLikelihood,
          QaNetPlusQuestionSpan.questionSpanMask, replaceMaskedValues, hj]
      · simp [QaNetPlusQuestionSpan.logLikelihoodForQuestionSpans,
          QaNetPlusQuestionSpan.amendedQuestionSlotLogLikelihood,
          QaNetPlusQuestionSpan.questionSpanMask, replaceMaskedValues,
          QaNetPlusQuestionSpan.claimQuestionSlotLogLikelihood, hj]
    unfold QaNetPlusQuestionSpan.marginalLogLikelihood
      QaNetPlusQuestionSpan.amendedCombinedMarginal
    rw [logsumexp_eq_log_sum_exp (by norm_num : 1 ≤ 2), Finset.sum_range_succ,
      Finset.sum_range_one]
    simp only [QaNetPlusQuestionSpan.stackedTypeMarginals, if_pos rfl,
      if_neg (by omega : (1 : ℕ) ≠ 0), if_true]
    rw [h1, h2]
  refine ⟨key, fun b hb => ?_⟩
  unfold QaNetPlusQuestionSpan.batchLoss
  rw [List.map_congr_left fun ex hex => key ex (hb ex hex).1 (hb ex hex).2]

/-- C1 witness: the amended per-example equality evaluated on a concrete
example with one annotated span of each type. -/
theorem C1_witness :
    QaNetPlusQuestionSpan.marginalLogLikelihood exC1W
      = QaNetPlusQuestionSpan.amendedCombinedMarginal exC1W :=
  C1_amended.1 exC1W (by decide) (by decide)

/-- C5 counterexample: `QaNetPlusQuestionSpan` selects the answer type by
`argmax` of the gate log-probabilities alone (line 207), ignoring the
gate-weighted best-derivation scores it computes at lines 185-205.  On
`exC5` the gate slightly prefers type 0 while the gate-weighted scores
prefer type 1 (since `1 < 2 log 2`), so the emitted answer comes from
type 0 although the claim's argmax is type 1. -/
theorem C5_counterexample :
    QaNetPlusQuestionSpan.bestAnswerType exC5 = 0
    ∧ QaNetPlusQuestionSpan.claimBestAnswerType exC5 = 1
    ∧ QaNetPlusQuestionSpan.decodedAnswer exC5
        = Except.ok (QaNetPlusQuestionSpan.Answer.passageSpan 0 0) := by
  have hL : QaNetPlusQuestionSpan.gateLogProbs exC5 0
      = 1 - Real.log (Real.exp 1 + Real.exp 0) := by
    show (1 : ℝ) - Real.log (∑ j ∈ Finset.range 2, Real.exp (exC5.gateLogits j))
      = 1 - Real.log (Real.exp 1 + Real.exp 0)
    rw [Finset.sum_range_succ, Finset.sum_range_one]
    rfl
  have hL1 : QaNetPlusQuestionSpan.gateLogProbs exC5 1
      = 0 - Real.log (Real.exp 1 + Real.exp 0) := by
    show (0 : ℝ) - Real.log (∑ j ∈ Finset.range 2, Real.exp (exC5.gateLogits j))
      = 0 - Real.log (Real.exp 1 + Real.exp 0)
    rw [Finset.sum_range_succ, Finset.sum_range_one]
    rfl
  have hbest : QaNetPlusQuestionSpan.bestAnswerType exC5 = 0 := by
    unfold QaNetPlusQuestionSpan.bestAnswerType
    rw [argmaxFirst_two, if_neg]
    rw [hL, hL1]
    linarith
  have hbp : QaNetPlusQuestionSpan.bestPassageSpan exC5 = (0, 0, 0) := by
    show (getBestSpanAux
      (replaceMaskedValues exC5.passageStartLogits exC5.passageMask (-1e7))
      (replaceMaskedValues exC5.passageEndLogits exC5.passageMask (-1e7)) 1).2 = (0, 0, 0)
    norm_num [getBestSpanAux, replaceMaskedValues, exC5]
  have hbq : QaNetPlusQuestionSpan.bestQuestionSpan exC5 = (0, 0, 0) := by
    show (getBestSpanAux
      (replaceMaskedValues exC5.questionStartLogits exC5.questionMask (-1e7))
      (replaceMaskedValues exC5.questionEndLogits exC5.questionMask (-1e7)) 0).2 = (0, 0, 0)
    norm_num [getBestSpanAux, replaceMaskedValues, exC5]
  have hms : maskedSoftmax exC5.passageStartLogits exC5.passageMask exC5.passageLen 0 = 1/2 := by
    show maskedSoftmax (fun _ => (0 : ℝ)) (fun _ => 1) 2 0 = 1/2
    unfold maskedSoftmax
    rw [Finset.sum_range_succ, Finset.sum_range_one]
    norm_num [Real.exp_zero]
  have hme : maskedSoftmax exC5.passageEndLogits exC5.passageMask exC5.passageLen 0 = 1/2 := by
    show maskedSoftmax (fun _ => (0 : ℝ)) (fun _ => 1) 2 0 = 1/2
    unfold maskedSoftmax
    rw [Finset.sum_range_succ, Finset.sum_range_one]
    norm_num [Real.exp_zero]
  have hw0 : QaNetPlusQuestionSpan.bestPassageSpanLogProb exC5
      = Real.log (1/2) + Real.log (1/2) + QaNetPlusQuestionSpan.gateLogProbs exC5 0 := by
    unfold QaNetPlusQuestionSpan.bestPassageSpanLogProb
      QaNetPlusQuestionSpan.passageStartLogProbs QaNetPlusQuestionSpan.passageEndLogProbs
      maskedLogSoftmax
    rw [hbp, hms, hme]
  have hw1 : QaNetPlusQuestionSpan.bestQuestionSpanLogProb exC5
      = 0 + 0 + QaNetPlusQuestionSpan.gateLogProbs exC5 1 := by
    unfold QaNetPlusQuestionSpan.bestQuestionSpanLogProb
    rw [hbq]
    have hq1 : QaNetPlusQuestionSpan.questionStartLogProbs exC5 0 = 0 :=
      maskedLogSoftmax_len_one _ _ rfl
    have hq2 : QaNetPlusQuestionSpan.questionEndLogProbs exC5 0 = 0 :=
      maskedLogSoftmax_len_one _ _ rfl
    rw [hq1, hq2]
  have hlog2 : (1 : ℝ) / 2 < Real.log 2 := by
    rw [Real.lt_log_iff_exp_lt (by norm_num : (0 : ℝ) < 2)]
    have hsq : Real.exp ((1 : ℝ)/2) ^ 2 = Real.exp 1 := by
      rw [← Real.exp_nat_mul]
      norm_num
    have h4 : Real.exp 1 < 4 := Real.exp_one_lt_d9.trans (by norm_num)
    have : Real.exp ((1 : ℝ)/2) ^ 2 < 2 ^ 2 := by
      rw [hsq]
      norm_num [h4]
    exact lt_of_pow_lt_pow_left₀ 2 (by norm_num) this
  have hclaim : QaNetPlusQuestionSpan.claimBestAnswerType exC5 = 1 := by
    unfold QaNetPlusQuestionSpan.claimBestAnswerType
    rw [argmaxFirst_two]
    rw [if_pos]
    show QaNetPlusQuestionSpan.bestPassageSpanLogProb exC5
      < QaNetPlusQuestionSpan.bestQuestionSpanLogProb exC5
    rw [hw0, hw1, hL, hL1]
    have hhalf : Real.log ((1 : ℝ)/2) = -Real.log 2 := by
      rw [show (1 : ℝ)/2 = 2⁻¹ by norm_num, Real.log_inv]
    rw [hhalf]
    linarith
  refine ⟨hbest, hclaim, ?_⟩
  unfold QaNetPlusQuestionSpan.decodedAnswer
  rw [hbest, hbp]
  simp

/-- C5 amended: in `QaNetForDrop` the emitted answer is produced from the
answer type whose gate-weighted best-derivation score is the first-index
argmax over the three configured types (ties resolve to the lowest
index); in `QaNetPlusQuestionSpan` the emitted answer is instead produced
from the answer type whose *gate log-probability alone* is the
first-index argmax over the two configured types — the gate-weighted
best-derivation scores computed at lines 185-205 are ignored by the
selection. -/
theorem C5_amended :
    (∀ h : QaNetForDrop.Heads,
      QaNetForDrop.bestAnswerType h < 3
      ∧ (∀ t < 3, QaNetForDrop.decodeScores h t
          ≤ QaNetForDrop.decodeScores h (QaNetForDrop.bestAnswerType h))
      ∧ (∀ t < QaNetForDrop.bestAnswerType h,
          QaNetForDrop.decodeScores h t
            < QaNetForDrop.decodeScores h (QaNetForDrop.bestAnswerType h))
      ∧ (QaNetForDrop.bestAnswerType h = 0 →
          QaNetForDrop.decodedAnswer h = Except.ok
            (QaNetForDrop.Answer.span (QaNetForDrop.bestSpan h).1 (QaNetForDrop.bestSpan h).2.1))
      ∧ (QaNetForDrop.bestAnswerType h = 1 →
          QaNetForDrop.decodedAnswer h = Except.ok
            (QaNetForDrop.Answer.plusMinus (QaNetForDrop.bestSignForNumber h)))
      ∧ (QaNetForDrop.bestAnswerType h = 2 →
          QaNetForDrop.decodedAnswer h = Except.ok
            (QaNetForDrop.Answer.count (QaNetForDrop.bestCountNumber h))))
    ∧ (∀ ex : QaNetPlusQuestionSpan.Example,
      QaNetPlusQuestionSpan.bestAnswerType ex < 2
      ∧ (∀ t < 2, QaNetPlusQuestionSpan.gateLogProbs ex t
          ≤ QaNetPlusQuestionSpan.gateLogProbs ex (QaNetPlusQuestionSpan.bestAnswerType ex))
      ∧ (∀ t < QaNetPlusQuestionSpan.bestAnswerType ex,
          QaNetPlusQuestionSpan.gateLogProbs ex t
            < QaNetPlusQuestionSpan.gateLogProbs ex (QaNetPlusQuestionSpan.bestAnswerType ex))) := by
  constructor
  · intro h
    refine ⟨argmaxFirst_lt _ 3 (by omega),
      fun t ht => le_argmaxFirst (QaNetForDrop.decodeScores h) 3 t ht,
      fun t ht => lt_argmaxFirst_of_lt (QaNetForDrop.decodeScores h) 3 t ht, ?_, ?_, ?_⟩
    · intro h0
      simp [QaNetForDrop.decodedAnswer, h0]
    · intro h1
      simp [QaNetForDrop.decodedAnswer, h1]
    · intro h2
      simp [QaNetForDrop.decodedAnswer, h2]
  · intro ex
    exact ⟨argmaxFirst_lt _ 2 (by omega),
      fun t ht => le_argmaxFirst (QaNetPlusQuestionSpan.gateLogProbs ex) 2 t ht,
      fun t ht => lt_argmaxFirst_of_lt (QaNetPlusQuestionSpan.gateLogProbs ex) 2 t ht⟩

/-- C5 witness: the amended selection properties evaluated on concrete
inputs. -/
theorem C5_witness :
    QaNetForDrop.decodeScores hC5W 0
      ≤ QaNetForDrop.decodeScores hC5W (QaNetForDrop.bestAnswerType hC5W)
    ∧ QaNetPlusQuestionSpan.gateLogProbs exC5 0
      ≤ QaNetPlusQuestionSpan.gateLogProbs exC5 (QaNetPlusQuestionSpan.bestAnswerType exC5) :=
  ⟨(C5_amended.1 hC5W).2.1 0 (by omega), (C5_amended.2 exC5).2.1 0 (by omega)⟩

/-- C4: evaluation of the decode-time best-span score at concrete heads.
In `QaNetForDrop` (line 186) both factors of the best-span score are
gathered from `span_start_probs`, so the score is the start distribution
at the start index times the start distribution at the *end* index — and
it provably differs from the claimed start-times-end product.  In
`QaNetPlusQuestionSpan` (lines 185-188) the end log-probability is
gathered at `best_passage_span[:, 0]`, the start index, so the score
adds the end distribution's log-probability at the *start* index — again
provably different from the claimed value. -/
theorem C4_span_score_uses_wrong_index :
    (QaNetForDrop.bestSpan hC4 = (0, 1, 2)
      ∧ QaNetForDrop.bestSpanProb hC4
          = QaNetForDrop.spanStartProbs hC4 0 * QaNetForDrop.spanStartProbs hC4 1
            * QaNetForDrop.answerTypeProbs hC4 0
      ∧ QaNetForDrop.bestSpanProb hC4
          ≠ QaNetForDrop.spanStartProbs hC4 0 * QaNetForDrop.spanEndProbs hC4 1
            * QaNetForDrop.answerTypeProbs hC4 0)
    ∧ (QaNetPlusQuestionSpan.bestPassageSpan exC4q = (0, 1, 2)
      ∧ QaNetPlusQuestionSpan.bestPassageSpanLogProb exC4q
          = QaNetPlusQuestionSpan.passageStartLogProbs exC4q 0
            + QaNetPlusQuestionSpan.passageEndLogProbs exC4q 0
            + QaNetPlusQuestionSpan.gateLogProbs exC4q 0
      ∧ QaNetPlusQuestionSpan.bestPassageSpanLogProb exC4q
          ≠ QaNetPlusQuestionSpan.passageStartLogProbs exC4q 0
            + QaNetPlusQuestionSpan.passageEndLogProbs exC4q 1
            + QaNetPlusQuestionSpan.gateLogProbs exC4q 0) := by
  have hexp01 : Real.exp 0 < Real.exp 1 := Real.exp_lt_exp.mpr (by norm_num)
  constructor
  · have hbs : QaNetForDrop.bestSpan hC4 = (0, 1, 2) := by
      show (getBestSpanAux (QaNetForDrop.replacedStartLogits hC4)
        (QaNetForDrop.replacedEndLogits hC4) 1).2 = (0, 1, 2)
      norm_num [getBestSpanAux, QaNetForDrop.replacedStartLogits,
        QaNetForDrop.replacedEndLogits, replaceMaskedValues, hC4]
    have hss0 : QaNetForDrop.spanStartProbs hC4 0
        = Real.exp 1 / (Real.exp 1 + Real.exp 0) := by
      show maskedSoftmax (fun i => if i = 0 then (1 : ℝ) else 0) (fun _ => 1) 2 0 = _
      unfold maskedSoftmax
      rw [Finset.sum_range_succ, Finset.sum_range_one]
      rw [if_neg (by positivity : (0 : ℝ) <
        1 * Real.exp (if 0 = 0 then (1 : ℝ) else 0)
          + 1 * Real.exp (if 1 = 0 then (1 : ℝ) else 0)).ne']
      norm_num
    have hss1 : QaNetForDrop.spanStartProbs hC4 1
        = Real.exp 0 / (Real.exp 1 + Real.exp 0) := by
      show maskedSoftmax (fun i => if i = 0 then (1 : ℝ) else 0) (fun _ => 1) 2 1 = _
      unfold maskedSoftmax
      rw [Finset.sum_range_succ, Finset.sum_range_one]
      rw [if_neg (by positivity : (0 : ℝ) <
        1 * Real.exp (if 0 = 0 then (1 : ℝ) else 0)
          + 1 * Real.exp (if 1 = 0 then (1 : ℝ) else 0)).ne']
      norm_num
    have hse1 : QaNetForDrop.spanEndProbs hC4 1
        = Real.exp 1 / (Real.exp 1 + Real.exp 0) := by
      show maskedSoftmax (fun i => if i = 0 then (0 : ℝ) else 1) (fun _ => 1) 2 1 = _
      unfold maskedSoftmax
      rw [Finset.sum_range_succ, Finset.sum_range_one]
      rw [if_neg (by positivity : (0 : ℝ) <
        1 * Real.exp (if 0 = 0 then (0 : ℝ) else 1)
          + 1 * Real.exp (if 1 = 0 then (0 : ℝ) else 1)).ne']
      norm_num
      ring
    have hp0 : 0 < QaNetForDrop.answerTypeProbs hC4 0 := by
      unfold QaNetForDrop.answerTypeProbs softmax
      have hsum : 0 < ∑ j ∈ Finset.range 3, Real.exp (hC4.gateLogits j) :=
        Finset.sum_pos (fun j _ => Real.exp_pos _) (Finset.nonempty_range_iff.mpr (by omega))
      positivity
    have hcode : QaNetForDrop.bestSpanProb hC4
        = QaNetForDrop.spanStartProbs hC4 0 * QaNetForDrop.spanStartProbs hC4 1
          * QaNetForDrop.answerTypeProbs hC4 0 := by
      unfold QaNetForDrop.bestSpanProb
      rw [hbs]
    refine ⟨hbs, hcode, ?_⟩
    rw [hcode, hss0, hss1, hse1]
    apply ne_of_lt
    have hD : 0 < Real.exp 1 + Real.exp 0 := by positivity
    apply mul_lt_mul_of_pos_right _ hp0
    apply mul_lt_mul_of_pos_left _ (by positivity : 0 < Real.exp 1 / (Real.exp 1 + Real.exp 0))
    have hinv : 0 < (Real.exp 1 + Real.exp 0)⁻¹ := by positivity
    have := mul_lt_mul_of_pos_right hexp01 hinv
    simpa [div_eq_mul_inv] using this
  · have hbp : QaNetPlusQuestionSpan.bestPassageSpan exC4q = (0, 1, 2) := by
      show (getBestSpanAux
        (replaceMaskedValues exC4q.passageStartLogits exC4q.passageMask (-1e7))
        (replaceMaskedValues exC4q.passageEndLogits exC4q.passageMask (-1e7)) 1).2 = (0, 1, 2)
      norm_num [getBestSpanAux, replaceMaskedValues, exC4q]
    have hpe0 : QaNetPlusQuestionSpan.passageEndLogProbs exC4q 0
        = Real.log (Real.exp 0 / (Real.exp 1 + Real.exp 0)) := by
      show Real.log (maskedSoftmax (fun i => if i = 0 then (0 : ℝ) else 1) (fun _ => 1) 2 0) = _
      congr 1
      unfold maskedSoftmax
      rw [Finset.sum_range_succ, Finset.sum_range_one]
      rw [if_neg (by positivity : (0 : ℝ) <
        1 * Real.exp (if 0 = 0 then (0 : ℝ) else 1)
          + 1 * Real.exp (if 1 = 0 then (0 : ℝ) else 1)).ne']
      norm_num
      ring
    have hpe1 : QaNetPlusQuestionSpan.passageEndLogProbs exC4q 1
        = Real.log (Real.exp 1 / (Real.exp 1 + Real.exp 0)) := by
      show Real.log (maskedSoftmax (fun i => if i = 0 then (0 : ℝ) else 1) (fun _ => 1) 2 1) = _
      congr 1
      unfold maskedSoftmax
      rw [Finset.sum_range_succ, Finset.sum_range_one]
      rw [if_neg (by positivity : (0 : ℝ) <
        1 * Real.exp (if 0 = 0 then (0 : ℝ) else 1)
          + 1 * Real.exp (if 1 = 0 then (0 : ℝ) else 1)).ne']
      norm_num
      ring
    have hcode : QaNetPlusQuestionSpan.bestPassageSpanLogProb exC4q
        = QaNetPlusQuestionSpan.passageStartLogProbs exC4q 0
          + QaNetPlusQuestionSpan.passageEndLogProbs exC4q 0
          + QaNetPlusQuestionSpan.gateLogProbs exC4q 0 := by
      unfold QaNetPlusQuestionSpan.bestPassageSpanLogProb
      rw [hbp]
    refine ⟨hbp, hcode, ?_⟩
    rw [hcode]
    intro heq
    have heq2 : QaNetPlusQuestionSpan.passageEndLogProbs exC4q 0
        = QaNetPlusQuestionSpan.passageEndLogProbs exC4q 1 := by linarith
    rw [hpe0, hpe1] at heq2
    have hlt : Real.log (Real.exp 0 / (Real.exp 1 + Real.exp 0))
        < Real.log (Real.exp 1 / (Real.exp 1 + Real.exp 0)) := by
      apply Real.log_lt_log (by positivity)
      have hinv : 0 < (Real.exp 1 + Real.exp 0)⁻¹ := by positivity
      have := mul_lt_mul_of_pos_right hexp01 hinv
      simpa [div_eq_mul_inv] using this
    exact hlt.ne heq2

/-- C7 counterexample: a well-formed one-example batch (a 1-token passage
with the single valid annotated span `(0, 0)` plus one padded slot) whose
training loss is `-log (1 + exp (-1e10))`, which is strictly negative —
the padded slot's sentinel `-1e10` adds `exp (-1e10)` of spurious
probability mass on top of the full mass 1 of the valid span. -/
theorem C7_counterexample : QaNetMarginal.batchLoss [exC7] < 0 := by
  have hs : QaNetMarginal.spanStartLogProbs exC7 0 = 0 :=
    maskedLogSoftmax_len_one _ _ rfl
  have he : QaNetMarginal.spanEndLogProbs exC7 0 = 0 :=
    maskedLogSoftmax_len_one _ _ rfl
  have h0 : QaNetMarginal.logLikelihoodForSpans exC7 0 = 0 := by
    show (QaNetMarginal.spanStartLogProbs exC7 0 + QaNetMarginal.spanEndLogProbs exC7 0) * 1
      + (-1e10) * (1 - 1) = 0
    rw [hs, he]
    ring
  have h1 : QaNetMarginal.logLikelihoodForSpans exC7 1 = -1e10 := by
    show (QaNetMarginal.spanStartLogProbs exC7 0 + QaNetMarginal.spanEndLogProbs exC7 0) * 0
      + (-1e10) * (1 - 0) = -1e10
    ring
  have hm : QaNetMarginal.logMarginalLikelihood exC7 = Real.log (1 + Real.exp (-1e10)) := by
    unfold QaNetMarginal.logMarginalLikelihood
    rw [logsumexp_eq_log_sum_exp (by decide : 1 ≤ exC7.numSpanSlots),
      show exC7.numSpanSlots = 2 from rfl, Finset.sum_range_succ, Finset.sum_range_one,
      h0, h1, Real.exp_zero]
  have hloss : QaNetMarginal.batchLoss [exC7] = -Real.log (1 + Real.exp (-1e10)) := by
    simp [QaNetMarginal.batchLoss, hm]
  rw [hloss]
  exact neg_lt_zero.mpr (Real.log_pos (lt_add_of_pos_right 1 (Real.exp_pos _)))

/-- The `QaNetMarginal` batch loss is non-negative whenever every example
is well-formed with no padded slots: each valid slot contributes
probability mass `P_start * P_end`, distinct annotated spans keep the
total mass at most 1, and the log-sum-exp is therefore non-positive. -/
theorem marginalBatchLoss_nonneg (b : List QaNetMarginal.Example)
    (hb : ∀ ex ∈ b, QaNetMarginal.WellFormed ex) :
    0 ≤ QaNetMarginal.batchLoss b := by
  have key : ∀ ex : QaNetMarginal.Example, QaNetMarginal.WellFormed ex →
      QaNetMarginal.logMarginalLikelihood ex ≤ 0 := by
    intro ex hwf
    obtain ⟨hmask, hslots, hvalid, hinj⟩ := hwf
    have hm' : ∀ i, 0 ≤ ex.passageMask i := fun i => by rcases hmask i with h1 | h1 <;> simp [h1]
    unfold QaNetMarginal.logMarginalLikelihood
    rw [logsumexp_eq_log_sum_exp hslots]
    refine Real.log_nonpos (Finset.sum_nonneg fun j _ => (Real.exp_pos _).le) ?_
    have hll : ∀ j ∈ Finset.range ex.numSpanSlots,
        Real.exp (QaNetMarginal.logLikelihoodForSpans ex j)
          = maskedSoftmax ex.startLogits ex.passageMask ex.passageLen (ex.spans j).1.toNat
            * maskedSoftmax ex.endLogits ex.passageMask ex.passageLen (ex.spans j).2.toNat := by
      intro j hj
      obtain ⟨hs0, _he0, hsl, hel, hms, hme⟩ := hvalid j (Finset.mem_range.mp hj)
      have hnp : (ex.spans j).1 ≠ -1 := by omega
      have hmask1 : QaNetMarginal.spanMask ex j = 1 := by
        unfold QaNetMarginal.spanMask
        rw [if_neg hnp]
      have hval : QaNetMarginal.logLikelihoodForSpans ex j
          = QaNetMarginal.spanStartLogProbs ex (ex.spans j).1.toNat
            + QaNetMarginal.spanEndLogProbs ex (ex.spans j).2.toNat := by
        unfold QaNetMarginal.logLikelihoodForSpans replaceMaskedValues
        rw [hmask1]
        unfold QaNetMarginal.clampedSpanStart QaNetMarginal.clampedSpanEnd
        ring
      rw [hval, Real.exp_add]
      unfold QaNetMarginal.spanStartLogProbs QaNetMarginal.spanEndLogProbs maskedLogSoftmax
      rw [Real.exp_log (maskedSoftmax_pos hm' hsl hms),
        Real.exp_log (maskedSoftmax_pos hm' hel hme)]
    rw [Finset.sum_congr rfl hll]
    obtain ⟨hs0, _, hsl0, _, hms0, _⟩ := hvalid 0 (by omega)
    have hinj' : ∀ x ∈ Finset.range ex.numSpanSlots, ∀ y ∈ Finset.range ex.numSpanSlots,
        (fun j => ((ex.spans j).1.toNat, (ex.spans j).2.toNat)) x
          = (fun j => ((ex.spans j).1.toNat, (ex.spans j).2.toNat)) y → x = y := by
      intro x hx y hy hxy
      obtain ⟨hx1, hx2, _, _, _, _⟩ := hvalid x (Finset.mem_range.mp hx)
      obtain ⟨hy1, hy2, _, _, _, _⟩ := hvalid y (Finset.mem_range.mp hy)
      refine hinj x y (Finset.mem_range.mp hx) (Finset.mem_range.mp hy) ?_
      have h1 := congrArg Prod.fst hxy
      have h2 := congrArg Prod.snd hxy
      simp only at h1 h2
      have := congrArg (fun z : ℕ => (z : ℤ)) h1
      have := congrArg (fun z : ℕ => (z : ℤ)) h2
      refine Prod.ext ?_ ?_ <;> omega
    calc
      ∑ j ∈ Finset.range ex.numSpanSlots,
          maskedSoftmax ex.startLogits ex.passageMask ex.passageLen (ex.spans j).1.toNat
            * maskedSoftmax ex.endLogits ex.passageMask ex.passageLen (ex.spans j).2.toNat
        = ∑ p ∈ (Finset.range ex.numSpanSlots).image
              (fun j => ((ex.spans j).1.toNat, (ex.spans j).2.toNat)),
            maskedSoftmax ex.startLogits ex.passageMask ex.passageLen p.1
              * maskedSoftmax ex.endLogits ex.passageMask ex.passageLen p.2 :=
          (@Finset.sum_image (ℕ × ℕ) ℝ ℕ
            (fun p => maskedSoftmax ex.startLogits ex.passageMask ex.passageLen p.1
              * maskedSoftmax ex.endLogits ex.passageMask ex.passageLen p.2) _ _
            (Finset.range ex.numSpanSlots)
            (fun j => ((ex.spans j).1.toNat, (ex.spans j).2.toNat)) hinj').symm
      _ ≤ ∑ p ∈ Finset.range ex.passageLen ×ˢ Finset.range ex.passageLen,
            maskedSoftmax ex.startLogits ex.passageMask ex.passageLen p.1
              * maskedSoftmax ex.endLogits ex.passageMask ex.passageLen p.2 := by
          refine Finset.sum_le_sum_of_subset_of_nonneg ?_ fun p _ _ =>
            mul_nonneg (maskedSoftmax_nonneg hm' _) (maskedSoftmax_nonneg hm' _)
          intro p hp
          obtain ⟨j, hj, rfl⟩ := Finset.mem_image.mp hp
          obtain ⟨_, _, hjl, hjr, _, _⟩ := hvalid j (Finset.mem_range.mp hj)
          exact Finset.mem_product.mpr ⟨Finset.mem_range.mpr hjl, Finset.mem_range.mpr hjr⟩
      _ = ∑ a ∈ Finset.range ex.passageLen, ∑ c ∈ Finset.range ex.passageLen,
            maskedSoftmax ex.startLogits ex.passageMask ex.passageLen a
              * maskedSoftmax ex.endLogits ex.passageMask ex.passageLen c :=
          @Finset.sum_product' ℕ ℝ ℕ _ (Finset.range ex.passageLen)
            (Finset.range ex.passageLen)
            (fun a c => maskedSoftmax ex.startLogits ex.passageMask ex.passageLen a
              * maskedSoftmax ex.endLogits ex.passageMask ex.passageLen c)
      _ = (∑ a ∈ Finset.range ex.passageLen,
            maskedSoftmax ex.startLogits ex.passageMask ex.passageLen a)
          * ∑ c ∈ Finset.range ex.passageLen,
            maskedSoftmax ex.endLogits ex.passageMask ex.passageLen c :=
          (Finset.sum_mul_sum (Finset.range ex.passageLen) (Finset.range ex.passageLen)
            (maskedSoftmax ex.startLogits ex.passageMask ex.passageLen)
            (maskedSoftmax ex.endLogits ex.passageMask ex.passageLen)).symm
      _ = 1 := by
          rw [maskedSoftmax_sum_eq_one hm' hsl0 hms0, maskedSoftmax_sum_eq_one hm' hsl0 hms0,
            mul_one]
  unfold QaNetMarginal.batchLoss
  rw [neg_nonneg]
  apply div_nonpos_iff.mpr
  refine Or.inr ⟨?_, Nat.cast_nonneg _⟩
  refine list_sum_nonpos fun x hx => ?_
  obtain ⟨ex, hex, rfl⟩ := List.mem_map.mp hx
  exact key ex (hb ex hex)

/-- The `QaNetForDrop` batch loss on `exC7fd` is strictly negative even
though no annotation slot is padded: the marginal likelihood is
`1 - p_combination` with `p_combination < 1e-10`, so the `1e-10` guard
added inside the final logarithm pushes its argument above 1. -/
theorem forDropBatchLoss_neg_without_padding :
    QaNetForDrop.batchLoss [exC7fd] < 0 := by
  have hspan : QaNetForDrop.spanLikelihoodSum hC7fd (fun _ => (0, 0)) 1 = 1 := by
    unfold QaNetForDrop.spanLikelihoodSum
    rw [Finset.sum_range_one]
    show QaNetForDrop.spanStartProbs hC7fd 0 * QaNetForDrop.spanEndProbs hC7fd 0 * 1 = 1
    have h1 : QaNetForDrop.spanStartProbs hC7fd 0 = 1 := maskedSoftmax_len_one _ _ rfl
    have h2 : QaNetForDrop.spanEndProbs hC7fd 0 = 1 := maskedSoftmax_len_one _ _ rfl
    rw [h1, h2]
    norm_num
  have hcombo : QaNetForDrop.combinationLikelihoodSum hC7fd (fun _ _ => 0) 0 = 0 := by
    unfold QaNetForDrop.combinationLikelihoodSum
    simp
  have hcount : QaNetForDrop.countLikelihoodSum hC7fd (fun j => (j : ℤ)) 10 = 1 := by
    unfold QaNetForDrop.countLikelihoodSum
    have hterm : ∀ j ∈ Finset.range 10,
        QaNetForDrop.countLikelihood hC7fd (fun j => (j : ℤ)) j
          = softmax hC7fd.countLogits 10 j := by
      intro j _
      simp only [QaNetForDrop.countLikelihood, QaNetForDrop.countMask,
        QaNetForDrop.countNumberProbs]
      rw [if_neg (show ¬((j : ℤ) = -1) by omega), Int.toNat_natCast, mul_one]
    rw [Finset.sum_congr rfl hterm]
    exact softmax_sum_eq_one hC7fd.countLogits (by omega)
  have hg : QaNetForDrop.answerTypeProbs hC7fd 0 + QaNetForDrop.answerTypeProbs hC7fd 1
      + QaNetForDrop.answerTypeProbs hC7fd 2 = 1 := by
    have h := softmax_sum_eq_one hC7fd.gateLogits (show (1 : ℕ) ≤ 3 by omega)
    rw [Finset.sum_range_succ, Finset.sum_range_succ, Finset.sum_range_one] at h
    exact h
  have hp1 : QaNetForDrop.answerTypeProbs hC7fd 1 < 1e-10 := by
    have hS : (1 : ℝ) ≤ ∑ j ∈ Finset.range 3, Real.exp (hC7fd.gateLogits j) := by
      rw [Finset.sum_range_succ, Finset.sum_range_succ, Finset.sum_range_one]
      have h1 := Real.exp_pos (hC7fd.gateLogits 1)
      have h0 : Real.exp (hC7fd.gateLogits 0) = 1 := by
        show Real.exp 0 = 1
        exact Real.exp_zero
      have h2 : Real.exp (hC7fd.gateLogits 2) = 1 := by
        show Real.exp 0 = 1
        exact Real.exp_zero
      rw [h0, h2]
      linarith
    have hdiv : QaNetForDrop.answerTypeProbs hC7fd 1 ≤ Real.exp (hC7fd.gateLogits 1) :=
      div_le_self (Real.exp_pos _).le hS
    have hsmall : Real.exp (hC7fd.gateLogits 1) < 1e-10 := by
      show Real.exp (-1e12) < 1e-10
      rw [Real.exp_neg]
      have h1 : (1e12 : ℝ) + 1 ≤ Real.exp 1e12 := Real.add_one_le_exp _
      have h2 : (Real.exp 1e12)⁻¹ ≤ ((1e12 : ℝ) + 1)⁻¹ := by
        rw [← one_div, ← one_div]
        exact one_div_le_one_div_of_le (by norm_num) h1
      calc (Real.exp 1e12)⁻¹ ≤ ((1e12 : ℝ) + 1)⁻¹ := h2
        _ < 1e-10 := by norm_num
    exact lt_of_le_of_lt hdiv hsmall
  have hm : QaNetForDrop.exampleMarginal exC7fd
      = QaNetForDrop.answerTypeProbs hC7fd 0 + QaNetForDrop.answerTypeProbs hC7fd 2 := by
    show QaNetForDrop.marginalLikelihood hC7fd (fun _ => (0, 0)) 1 (fun _ _ => 0) 0
      (fun j => (j : ℤ)) 10 = _
    unfold QaNetForDrop.marginalLikelihood
    rw [hspan, hcombo, hcount]
    ring
  have hgt : 1 < QaNetForDrop.exampleMarginal exC7fd + 1e-10 := by
    rw [hm]
    linarith
  have hloss : QaNetForDrop.batchLoss [exC7fd]
      = -Real.log (QaNetForDrop.exampleMarginal exC7fd + 1e-10) := by
    simp [QaNetForDrop.batchLoss]
  rw [hloss]
  exact neg_lt_zero.mpr (Real.log_pos hgt)

/-- C7 amended: the training loss is always a well-defined real, and in
`QaNetMarginal` it is non-negative for every batch of well-formed
examples whose annotated spans are all valid, distinct and non-padded
(no padded slots).  Non-negativity holds no more widely: with padded
slots present the sentinel `-1e10` adds spurious mass (the
counterexample), and in `QaNetForDrop` the `1e-10` guard added inside
the final logarithm can push the loss below zero even on a batch with no
padded slots at all, as the second conjunct shows on `exC7fd`. -/
theorem C7_amended :
    (∀ b : List QaNetMarginal.Example,
      (∀ ex ∈ b, QaNetMarginal.WellFormed ex) → 0 ≤ QaNetMarginal.batchLoss b)
    ∧ QaNetForDrop.batchLoss [exC7fd] < 0 :=
  ⟨fun b hb => marginalBatchLoss_nonneg b hb, forDropBatchLoss_neg_without_padding⟩

/-- C7 witness: the amended statement applied to a concrete well-formed
batch with a single fully valid example. -/
theorem C7_witness : 0 ≤ QaNetMarginal.batchLoss [exC7W] := by
  refine C7_amended.1 [exC7W] fun ex hex => ?_
  rw [List.mem_singleton.mp hex]
  refine ⟨fun _ => Or.inr rfl, by decide, ?_, ?_⟩
  · intro j _
    exact ⟨le_refl 0, le_refl 0, Nat.zero_lt_one, Nat.zero_lt_one, rfl, rfl⟩
  · intro j k hj hk _
    have h1 : exC7W.numSpanSlots = 1 := rfl
    omega

end RC
